import Mathlib

/-!
Verification of the ComfyUI Make-It-Animatable wrapper (`nodes.py`, `server.py`).

The repository is IO glue: it computes paths, launches a subprocess, checks files
and manipulates a Blender scene.  We give a shallow embedding: the filesystem is a
set of existing regular-file paths, subprocess execution and network downloads are
oracles passed in as parameters, and every wrapper function is translated into a
pure state-passing Lean function that also returns a trace of the externally
visible events it performed (files unlinked, commands launched, lines printed).

Paths are modelled as already-normalised POSIX strings, so `pathlib.Path`
construction and `as_posix()` are the identity on them; `Path.with_suffix("")`
and `Path.suffix` are translated faithfully on such strings.
-/

set_option autoImplicit false

namespace MIA

/-! ## Strings and paths (pathlib semantics used by the sources) -/

/-- Index of the last occurrence of `c` in `cs` (Python `str.rfind`),
`none` when absent. -/
def rfindIdx (cs : List Char) (c : Char) : Option Nat :=
  ((List.range cs.length).filter (fun i => cs.getD i ' ' = c)).getLast?

/-- `pathlib`: split a path into the directory part (up to and including the last
slash) and the final component. -/
def splitBase (cs : List Char) : List Char × List Char :=
  match rfindIdx cs '/' with
  | some i => (cs.take (i + 1), cs.drop (i + 1))
  | none => ([], cs)

/-- `pathlib`: the name `cs` has a (nonempty) suffix iff its last dot is neither
the first nor the last character; dropping the suffix truncates at that dot.
This is `PurePath.with_suffix("")` restricted to the final component. -/
def dropSuffixName (cs : List Char) : List Char :=
  match rfindIdx cs '.' with
  | some i => if 0 < i ∧ i < cs.length - 1 then cs.take i else cs
  | none => cs

/-- `pathlib`: the suffix of the name (with its dot), `""` when there is none. -/
def suffixName (cs : List Char) : List Char :=
  match rfindIdx cs '.' with
  | some i => if 0 < i ∧ i < cs.length - 1 then cs.drop i else []
  | none => []

/-- `Path(p).with_suffix("").as_posix()` on a normalised POSIX path: drop the
final extension of the last component. -/
def withSuffixEmpty (p : String) : String :=
  let (d, b) := splitBase p.toList
  String.mk (d ++ dropSuffixName b)

/-- `Path(p).suffix` on a normalised POSIX path. -/
def pathSuffix (p : String) : String :=
  String.mk (suffixName (splitBase p.toList).2)

/-- Python `str.lower()` for the ASCII strings compared by the sources. -/
def pyLower (s : String) : String :=
  String.mk (s.toList.map Char.toLower)

/-- Python whitespace stripped by `str.strip()` (the ASCII whitespace class). -/
def pyIsSpace (c : Char) : Bool :=
  c = ' ' ∨ c = '\t' ∨ c = '\n' ∨ c = '\x0d' ∨ c = '\x0b' ∨ c = '\x0c'

/-- Python `str.strip()`: remove leading and trailing whitespace. -/
def pyStrip (s : String) : String :=
  String.mk (((s.toList.dropWhile pyIsSpace).reverse.dropWhile pyIsSpace).reverse)

/-! ## Python values forwarded in `--kwargs` JSON -/

/-- The values the nodes put into `node_kwargs`: booleans, and the host-supplied
`opacity_threshold` number carried as its decimal text (it is passed through
unchanged, never computed with). -/
inductive PyVal where
  | pyBool (b : Bool)
  | pyNum (s : String)
  deriving DecidableEq, Repr

/-- Python truthiness of the values above (`0`-valued numeric literals are
falsy); the sources only ever test booleans. -/
def PyVal.truthy : PyVal → Bool
  | .pyBool b => b
  | .pyNum s => ¬(s = "0" ∨ s = "0.0" ∨ s = "-0.0")

/-- `json.dumps` rendering of one value. -/
def PyVal.render : PyVal → String
  | .pyBool true => "true"
  | .pyBool false => "false"
  | .pyNum s => s

/-- A Python `**kwargs` dict: insertion-ordered association list with distinct
keys (keyword arguments are unique). -/
abbrev Kwargs := List (String × PyVal)

/-- `dict.get k default`. -/
def kwGet (kw : Kwargs) (k : String) (dflt : PyVal) : PyVal :=
  match kw.find? (fun p => p.1 = k) with
  | some p => p.2
  | none => dflt

/-- `json.dumps` of a kwargs dict, with Python's default separators. -/
def jsonDumps (kw : Kwargs) : String :=
  "\x7b" ++ String.intercalate ", "
    (kw.map (fun p => "\"" ++ p.1 ++ "\": " ++ p.2.render)) ++ "\x7d"

/-! ## Filesystem and event trace for `nodes.py` -/

/-- The filesystem as seen by `nodes.py`: the set of paths at which a regular
file currently exists (`os.path.isfile` / `Path.exists` / `Path.unlink`). -/
structure World where
  files : List String
  deriving DecidableEq, Repr

def World.hasFile (w : World) (p : String) : Bool :=
  w.files.contains p

def World.unlink (w : World) (p : String) : World :=
  ⟨w.files.filter (fun q => q ≠ p)⟩

/-- What a run of the external subprocess reports back to `subprocess.run`. -/
structure SubResult where
  stdout : String
  stderr : String
  returncode : Int
  deriving DecidableEq, Repr

/-- Externally visible events performed by `nodes.py`. -/
inductive Event where
  | unlink (p : String)
  | launch (cmd : List String)
  | printLine (s : String)
  deriving DecidableEq, Repr

/-- A Python exception: its class name and its message. -/
structure PyErr where
  ename : String
  msg : String
  deriving DecidableEq, Repr

/-! ## `run_make_it_animatable` (nodes.py lines 137-166) -/

/-- `use_gs = node_kwargs.get("is_gs", False)` as a truth value. -/
def useGs (node_kwargs : Kwargs) : Bool :=
  (kwGet node_kwargs "is_gs" (.pyBool false)).truthy

/-- The output path computed by `run_make_it_animatable`: the input path with
its extension removed and `_rigged.glb` (or `_rigged.blend` for Gaussian
splats) appended. -/
def expectedOutput (input_path : String) (node_kwargs : Kwargs) : String :=
  let suffix := if useGs node_kwargs then ".blend" else ".glb"
  withSuffixEmpty input_path ++ "_rigged" ++ suffix

/-- `script = NODE_DIR / "server.py"`. -/
def serverScript (nodeDir : String) : String := nodeDir ++ "/server.py"

/-- `python = REPO_DIR / "venv311" / "Scripts" / "python"`. -/
def venvPython (nodeDir : String) : String :=
  nodeDir ++ "/Make_It_Animatable/venv311/Scripts/python"

/-- The argument vector handed to `subprocess.run`. -/
def subprocessCmd (nodeDir input_path output_file : String)
    (node_kwargs : Kwargs) : List String :=
  [venvPython nodeDir, serverScript nodeDir,
   "--input", input_path,
   "--output", output_file,
   "--kwargs", jsonDumps node_kwargs]

/-- Lines 149-150: delete any stale file at the output path before launching. -/
def preSubprocessWorld (output_file : String) (w : World) : World × List Event :=
  if w.hasFile output_file then (w.unlink output_file, [.unlink output_file])
  else (w, [])

/-- `run_make_it_animatable(input_path, **node_kwargs)` (nodes.py 137-166).
`sub` is the subprocess oracle: given the argument vector and the filesystem
when the child starts, it yields the filesystem when the child exits together
with the captured output.  Returns the Python result (path or raised
`RuntimeError`), the final filesystem, and the event trace. -/
def run_make_it_animatable (nodeDir : String) (input_path : String)
    (node_kwargs : Kwargs) (sub : List String → World → World × SubResult)
    (w : World) : Except PyErr String × World × List Event :=
  let output_file := expectedOutput input_path node_kwargs
  let pre := preSubprocessWorld output_file w
  let cmd := subprocessCmd nodeDir input_path output_file node_kwargs
  let res := sub cmd pre.1
  if ¬ res.1.hasFile output_file then
    (.error ⟨"RuntimeError", "Make-It-Animatable failed. " ++ res.2.stderr⟩, res.1,
      pre.2 ++ [.launch cmd,
                .printLine "Make-It-Animatable subprocess failed:",
                .printLine res.2.stdout,
                .printLine res.2.stderr])
  else
    (.ok output_file, res.1, pre.2 ++ [.launch cmd])

/-! ## Environment bootstrap (nodes.py lines 30-135)

The setup steps issue external commands (`git`, `uv`, `pip`) and hub downloads.
Each external operation's outcome is an oracle field of `SetupEnv`; the durable
on-disk facts the steps branch on are the boolean fields of `SetupState`.  Each
step returns its Python result, the updated state and the list of external
actions it attempted, in order. -/

/-- One attempted external setup action. -/
inductive Action where
  | gitClone
  | applyPatch (i : Nat)
  | downloadModels
  | downloadMixamo
  | uvVenv
  | ensurepip
  | pipInstall
  deriving DecidableEq, Repr

/-- Which of the five setup phases an action belongs to. -/
def Action.stepIdx : Action → Nat
  | .gitClone => 0
  | .applyPatch _ => 1
  | .downloadModels => 2
  | .downloadMixamo => 3
  | .uvVenv | .ensurepip | .pipInstall => 4

/-- Outcome of one `git apply` in `apply_patches`: success, a failure whose
stderr marks it as already applied (tolerated), or any other failure. -/
inductive PatchOutcome where
  | ok
  | tolerated
  | fatal
  deriving DecidableEq, Repr

/-- Oracles for the external operations the setup steps perform. -/
structure SetupEnv where
  cloneResult : Except PyErr Unit
  patchOutcomes : List PatchOutcome
  downloadModelsResult : Except PyErr Unit
  downloadMixamoResult : Except PyErr Unit
  uvVenvResult : Except PyErr Unit
  ensurepipResult : Except PyErr Unit
  pipInstallResult : Except PyErr Unit

/-- The on-disk and in-process facts the setup steps branch on. -/
structure SetupState where
  repoExists : Bool
  patchDirExists : Bool
  modelsNonempty : Bool
  mixamoNonempty : Bool
  requirementsExist : Bool
  pipExists : Bool
  setupComplete : Bool
  deriving DecidableEq, Repr

/-- Result triple of a setup step. -/
abbrev StepResult := Except PyErr Unit × SetupState × List Action

/-- `clone_repo` (nodes.py 30-39): skip when the repo directory exists;
otherwise `mkdir` the directory (so it exists from now on) and run `git clone`. -/
def clone_repo (env : SetupEnv) (s : SetupState) : StepResult :=
  if s.repoExists then (.ok (), s, [])
  else
    let s := { s with repoExists := true }
    match env.cloneResult with
    | .ok _ => (.ok (), s, [.gitClone])
    | .error e => (.error e, s, [.gitClone])

/-- The loop body of `apply_patches` over the sorted patch files: a fatal
`git apply` failure raises `RuntimeError` and stops; tolerated failures and
successes continue. -/
def applyPatchLoop (outcomes : List PatchOutcome) (i : Nat) : Except PyErr Unit × List Action :=
  match outcomes with
  | [] => (.ok (), [])
  | o :: rest =>
    match o with
    | .fatal => (.error ⟨"RuntimeError", "Failed to apply patch"⟩, [.applyPatch i])
    | _ =>
      let rec_ := applyPatchLoop rest (i + 1)
      (rec_.1, .applyPatch i :: rec_.2)

/-- `apply_patches` (nodes.py 41-63): no-op when the patches directory is
missing; otherwise apply each patch in order. -/
def apply_patches (env : SetupEnv) (s : SetupState) : StepResult :=
  if ¬ s.patchDirExists then (.ok (), s, [])
  else
    let l := applyPatchLoop env.patchOutcomes 0
    (l.1, s, l.2)

/-- `download_pretrained_models` (nodes.py 65-83): `mkdir -p` the target, skip
when it is nonempty, otherwise `snapshot_download` (which fills it). -/
def download_pretrained_models (env : SetupEnv) (s : SetupState) : StepResult :=
  if s.modelsNonempty then (.ok (), s, [])
  else
    match env.downloadModelsResult with
    | .ok _ => (.ok (), { s with modelsNonempty := true }, [.downloadModels])
    | .error e => (.error e, s, [.downloadModels])

/-- `download_mixamo_bones` (nodes.py 85-102): same shape as the model
download, into `data/Mixamo`. -/
def download_mixamo_bones (env : SetupEnv) (s : SetupState) : StepResult :=
  if s.mixamoNonempty then (.ok (), s, [])
  else
    match env.downloadMixamoResult with
    | .ok _ => (.ok (), { s with mixamoNonempty := true }, [.downloadMixamo])
    | .error e => (.error e, s, [.downloadMixamo])

/-- `ensure_repo_venv` (nodes.py 104-118): no-op without `requirements.txt` or
when the venv's pip already exists; otherwise `uv venv`, `ensurepip`,
`pip install -r` in order, stopping at the first failure. -/
def ensure_repo_venv (env : SetupEnv) (s : SetupState) : StepResult :=
  if ¬ s.requirementsExist then (.ok (), s, [])
  else if s.pipExists then (.ok (), s, [])
  else
    match env.uvVenvResult with
    | .error e => (.error e, s, [.uvVenv])
    | .ok _ =>
      match env.ensurepipResult with
      | .error e => (.error e, s, [.uvVenv, .ensurepip])
      | .ok _ =>
        match env.pipInstallResult with
        | .error e => (.error e, s, [.uvVenv, .ensurepip, .pipInstall])
        | .ok _ => (.ok (), { s with pipExists := true }, [.uvVenv, .ensurepip, .pipInstall])

/-- `setup_make_it_animatable` (nodes.py 120-135): return at once when the
`setup_complete` flag is set; otherwise run the five steps in order, set the
flag after all succeed, and re-raise (propagate) the first failure. -/
def setup_make_it_animatable (env : SetupEnv) (s : SetupState) : StepResult :=
  if s.setupComplete then (.ok (), s, [])
  else
    let p1 := clone_repo env s
    match p1.1 with
    | .error e => (.error e, p1.2)
    | .ok _ =>
      let p2 := apply_patches env p1.2.1
      match p2.1 with
      | .error e => (.error e, p2.2.1, p1.2.2 ++ p2.2.2)
      | .ok _ =>
        let p3 := download_pretrained_models env p2.2.1
        match p3.1 with
        | .error e => (.error e, p3.2.1, p1.2.2 ++ p2.2.2 ++ p3.2.2)
        | .ok _ =>
          let p4 := download_mixamo_bones env p3.2.1
          match p4.1 with
          | .error e => (.error e, p4.2.1, p1.2.2 ++ p2.2.2 ++ p3.2.2 ++ p4.2.2)
          | .ok _ =>
            let p5 := ensure_repo_venv env p4.2.1
            match p5.1 with
            | .error e => (.error e, p5.2.1, p1.2.2 ++ p2.2.2 ++ p3.2.2 ++ p4.2.2 ++ p5.2.2)
            | .ok _ =>
              (.ok (), { p5.2.1 with setupComplete := true },
               p1.2.2 ++ p2.2.2 ++ p3.2.2 ++ p4.2.2 ++ p5.2.2)

/-! ## The two node classes (nodes.py 168-250) -/

/-- Events performed during a node invocation: the setup actions, then the
filesystem/subprocess events of `run_make_it_animatable`. -/
inductive NodeEvent where
  | setupAct (a : Action)
  | fsEvent (e : Event)
  deriving DecidableEq, Repr

/-- State a node invocation reads and writes: the setup facts and the
filesystem. -/
structure NState where
  setup : SetupState
  world : World

/-- Shared tail of both `run` methods (nodes.py 198-207 and 241-250): setup,
strip and validate the input path, then call `run_make_it_animatable` with the
given kwargs dict. -/
def nodeRunWith (nodeDir : String) (env : SetupEnv)
    (sub : List String → World → World × SubResult)
    (input_model_path : String) (kwargsOf : String → Kwargs)
    (st : NState) : Except PyErr String × NState × List NodeEvent :=
  let p := setup_make_it_animatable env st.setup
  let s1 := p.2.1
  let tr := p.2.2.map NodeEvent.setupAct
  match p.1 with
  | .error e => (.error e, ⟨s1, st.world⟩, tr)
  | .ok _ =>
    let input_path := pyStrip input_model_path
    if input_path = "" then
      (.error ⟨"RuntimeError", "input_model_path is empty."⟩, ⟨s1, st.world⟩, tr)
    else if ¬ st.world.hasFile input_path then
      (.error ⟨"RuntimeError", "Input model not found: " ++ input_path⟩, ⟨s1, st.world⟩, tr)
    else
      let q := run_make_it_animatable nodeDir input_path (kwargsOf input_path) sub st.world
      (q.1, ⟨s1, q.2.1⟩, tr ++ q.2.2.map NodeEvent.fsEvent)

/-- The kwargs dict built at the call site in `MakeItAnimatableRig.run`
(nodes.py 206). -/
def rigKwargs (no_fingers use_normals weight_postprocess : Bool) : Kwargs :=
  [("is_gs", .pyBool false),
   ("no_fingers", .pyBool no_fingers),
   ("input_normal", .pyBool use_normals),
   ("bw_fix", .pyBool weight_postprocess),
   ("inplace", .pyBool false)]

/-- `MakeItAnimatableRig.run` (nodes.py 191-207). -/
def MakeItAnimatableRig_run (nodeDir : String) (env : SetupEnv)
    (sub : List String → World → World × SubResult)
    (input_model_path : String) (no_fingers use_normals weight_postprocess : Bool)
    (st : NState) : Except PyErr String × NState × List NodeEvent :=
  nodeRunWith nodeDir env sub input_model_path
    (fun _ => rigKwargs no_fingers use_normals weight_postprocess) st

/-- The kwargs dict built at the call site in `MakeItAnimatableRigGS.run`
(nodes.py 249). -/
def rigGSKwargs (opacity_threshold : PyVal)
    (no_fingers use_normals weight_postprocess : Bool) : Kwargs :=
  [("is_gs", .pyBool true),
   ("opacity_threshold", opacity_threshold),
   ("no_fingers", .pyBool no_fingers),
   ("input_normal", .pyBool use_normals),
   ("bw_fix", .pyBool weight_postprocess),
   ("inplace", .pyBool false)]

/-- `MakeItAnimatableRigGS.run` (nodes.py 233-250). -/
def MakeItAnimatableRigGS_run (nodeDir : String) (env : SetupEnv)
    (sub : List String → World → World × SubResult)
    (input_model_path : String) (opacity_threshold : PyVal)
    (no_fingers use_normals weight_postprocess : Bool)
    (st : NState) : Except PyErr String × NState × List NodeEvent :=
  nodeRunWith nodeDir env sub input_model_path
    (fun _ => rigGSKwargs opacity_threshold no_fingers use_normals weight_postprocess) st

/-! ## Blender scene model for `fbx2glb` (server.py lines 33-123)

A Blender object is a mesh, an armature or something else; a mesh carries its
material slots (a slot may be empty, `mat` may be `None` in the source's
loops).  An object's pending transform and the transform already baked into
its data are words over an abstract alphabet of elementary transforms;
`transform_apply` composes the pending word onto the data and resets the
pending word to the identity `[]`.  Materials are datablocks surviving scene
clears, so the recorded dictionary stays valid after the scene is emptied.
3D file contents are given by `fs : String → Option (List BObj)`; `none`
means no file exists at that path.  Paths are absolute, so `os.path.abspath`
is the identity on them. -/

inductive BObjKind where
  | mesh
  | armature
  | other
  deriving DecidableEq, Repr

/-- A material datablock: an identity and the `mat.name` used as dict key. -/
structure BMat where
  mid : Nat
  mname : String
  deriving DecidableEq, Repr

structure BObj where
  kind : BObjKind
  oname : String
  matSlots : List (Option BMat)
  xform : List String
  geomXf : List String
  deriving DecidableEq, Repr

/-- Scene-level events of `fbx2glb`, in order of execution. -/
inductive FEvent where
  | clearScene
  | importGLB (p : String)
  | importFBX (p : String) (ignoreLeafBones : Bool)
  | transformApply (objName : String)
  | exportGLB (p : String)
  deriving DecidableEq, Repr

def sceneMeshes (objs : List BObj) : List BObj :=
  objs.filter (fun o => o.kind = .mesh)

def sceneArmatures (objs : List BObj) : List BObj :=
  objs.filter (fun o => o.kind = .armature)

/-- `original_materials[mat.name] = mat`: Python dict assignment keeps the
original insertion position of an existing key and overwrites its value. -/
def dictInsert (d : List (String × BMat)) (k : String) (v : BMat) :
    List (String × BMat) :=
  if d.any (fun p => p.1 = k) then d.map (fun p => if p.1 = k then (k, v) else p)
  else d ++ [(k, v)]

/-- Lines 54-59: record every non-`None` material of every mesh, keyed by
name, in iteration order. -/
def collectMaterials (meshes : List BObj) : List (String × BMat) :=
  meshes.foldl
    (fun d m =>
      m.matSlots.foldl
        (fun d mo =>
          match mo with
          | some mat => dictInsert d mat.mname mat
          | none => d)
        d)
    []

/-- Lines 78-94, for one FBX mesh: clear the slots, append every recorded
original material; the fallback branch is reproduced literally (it can never
append, since `applied_any_material` is true exactly when the dict is
nonempty). -/
def transplantSlots (original_materials : List (String × BMat)) :
    List (Option BMat) :=
  let cleared : List (Option BMat) := []
  let appended := cleared ++ original_materials.map (fun p => some p.2)
  let appliedAny := ¬ original_materials.isEmpty
  if ¬ appliedAny ∧ appended.length = 0 then
    match original_materials.head? with
    | some p => appended ++ [some p.2]
    | none => appended
  else appended

/-- `transform_apply(location=True, rotation=True, scale=True)` on one object:
bake the pending transform into the data, reset it to the identity. -/
def applyXform (o : BObj) : BObj :=
  { o with geomXf := o.xform ++ o.geomXf, xform := [] }

/-- Lines 105-115, one of the two loops: apply transforms to every scene
object of kind `k`, in scene order. -/
def applyAllOfKind (k : BObjKind) (objs : List BObj) : List BObj × List FEvent :=
  (objs.map (fun o => if o.kind = k then applyXform o else o),
   (objs.filter (fun o => o.kind = k)).map (fun o => .transformApply o.oname))

/-- Truthiness of the `original_glb` argument (`None` and `""` are falsy). -/
def pyTruthyOpt : Option String → Bool
  | none => false
  | some s => s ≠ ""

/-- `fbx2glb(input_fbx, output_glb, original_glb, clear_scene)`
(server.py 33-123).  Returns the raised error or the final (= exported) scene,
plus the event trace.  Importing a missing FBX raises; a successful export
writes the scene to the output path. -/
def fbx2glb (fs : String → Option (List BObj)) (input_fbx output_glb : String)
    (original_glb : Option String) (clear_scene : Bool) (sc : List BObj) :
    Except PyErr (List BObj) × List FEvent :=
  let ct :=
    if clear_scene then (([] : List BObj), [FEvent.clearScene]) else (sc, [])
  let sc0 := ct.1
  let tr0 := ct.2
  if pyTruthyOpt original_glb ∧ (fs (original_glb.getD "")).isSome then
    let og := original_glb.getD ""
    let glbContent := (fs og).getD []
    let sc1 := sc0 ++ glbContent
    let original_meshes := sceneMeshes sc1
    let original_materials := collectMaterials original_meshes
    -- lines 62-66: clear the scene to import the FBX
    let sc2 : List BObj := []
    match fs input_fbx with
    | none =>
      (.error ⟨"RuntimeError", "FBX import failed: " ++ input_fbx⟩,
       tr0 ++ [.importGLB og, .clearScene])
    | some fbxContent =>
      let sc3 := sc2 ++ fbxContent
      let sc4 := sc3.map (fun o =>
        if o.kind = .mesh then { o with matSlots := transplantSlots original_materials }
        else o)
      let a := applyAllOfKind .armature sc4
      let m := applyAllOfKind .mesh a.1
      (.ok m.1,
       tr0 ++ [.importGLB og, .clearScene, .importFBX input_fbx true]
           ++ a.2 ++ m.2 ++ [.exportGLB output_glb])
  else
    match fs input_fbx with
    | none =>
      (.error ⟨"RuntimeError", "FBX import failed: " ++ input_fbx⟩, tr0)
    | some fbxContent =>
      let sc1 := sc0 ++ fbxContent
      let a := applyAllOfKind .armature sc1
      let m := applyAllOfKind .mesh a.1
      (.ok m.1,
       tr0 ++ [.importFBX input_fbx true] ++ a.2 ++ m.2
           ++ [.exportGLB output_glb])

/-! ## The server entry point (server.py lines 128-171)

The pipeline, the Blender conversion and the filesystem primitives it calls
are oracles in `ServerEnv`.  A successful `fbx2glb` call leaves its exported
GLB at the output path; a successful `shutil.move` removes the source and
creates the destination; `Path.unlink(missing_ok=True)` removes the path when
present.  The entry point returns the process exit code (0 when the `try`
body falls through, 1 from `sys.exit(1)` in the `except` arm), the final
filesystem, and a trace. -/

def World.addFile (w : World) (p : String) : World :=
  if w.hasFile p then w else ⟨p :: w.files⟩

/-- The eight temp-file attributes of the pipeline's `db` object, plus the
animation output path; a field is `none` when the attribute is `None`. -/
structure DB where
  joints_coarse_path : Option String
  normed_path : Option String
  sample_path : Option String
  bw_path : Option String
  joints_path : Option String
  rest_lbs_path : Option String
  rest_vis_path : Option String
  anim_vis_path : Option String
  anim_path : Option String
  deriving DecidableEq, Repr

/-- `temp_files_to_delete` (server.py 141-150), in source order. -/
def tempFilesToDelete (db : DB) : List (Option String) :=
  [db.joints_coarse_path, db.normed_path, db.sample_path, db.bw_path,
   db.joints_path, db.rest_lbs_path, db.rest_vis_path, db.anim_vis_path]

/-- Events of one server run. -/
inductive SEvent where
  | unlinkAttempt (p : String)
  | converted (animPath outPath : String) (originalGlb : Option String)
  | moved (src dst : String)
  | tracebackToStderr
  deriving DecidableEq, Repr

/-- Oracles for the external effects of the server entry point. -/
structure ServerEnv where
  /-- `json.loads(args.kwargs)`. -/
  kwargsParse : Except PyErr Kwargs
  /-- `db = mia.DB(); run_once(Path(args.input), db, **kwargs)`: the populated
  `db`, or the exception the pipeline raised. -/
  pipeline : String → Kwargs → Except PyErr DB
  /-- `Path(path).unlink(missing_ok=True)` on one temp path. -/
  unlinkResult : String → Except PyErr Unit
  /-- `fbx2glb(db.anim_path, output_path, original_glb=args.input)`. -/
  convert : String → String → Option String → Except PyErr Unit
  /-- `output_path.parent.mkdir(parents=True, exist_ok=True)`. -/
  mkdirResult : String → Except PyErr Unit
  /-- `shutil.move(input_path, output_path)`. -/
  moveResult : String → String → Except PyErr Unit

/-- Lines 152-157: the `for path in temp_files_to_delete` loop — try to unlink
each truthy temp path, swallowing every exception raised by a deletion. -/
def cleanupTemps (env : ServerEnv) (w : World) :
    List (Option String) → World × List SEvent
  | [] => (w, [])
  | po :: rest =>
    if pyTruthyOpt po then
      let p := po.getD ""
      match env.unlinkResult p with
      | .ok _ =>
        let r := cleanupTemps env (w.unlink p) rest
        (r.1, .unlinkAttempt p :: r.2)
      | .error _ =>
        let r := cleanupTemps env w rest
        (r.1, .unlinkAttempt p :: r.2)
    else cleanupTemps env w rest

/-- The `__main__` block of server.py (lines 128-171).  The dead local
`output_dir` (line 139) has no effect and is not modelled.  A `None`
`db.anim_path` makes `Path(db.anim_path)` raise, landing in the `except` arm
like every other failure. -/
def serverMain (env : ServerEnv) (argsInput argsOutput : String) (w : World) :
    Nat × World × List SEvent :=
  match env.kwargsParse with
  | .error _ => (1, w, [.tracebackToStderr])
  | .ok kwargs =>
    match env.pipeline argsInput kwargs with
    | .error _ => (1, w, [.tracebackToStderr])
    | .ok db =>
      let c := cleanupTemps env w (tempFilesToDelete db)
      match db.anim_path with
      | none => (1, c.1, c.2 ++ [.tracebackToStderr])
      | some anim =>
        if pyLower (pathSuffix anim) = ".fbx" then
          match env.convert anim argsOutput (some argsInput) with
          | .ok _ =>
            (0, c.1.addFile argsOutput,
             c.2 ++ [.converted anim argsOutput (some argsInput)])
          | .error _ => (1, c.1, c.2 ++ [.tracebackToStderr])
        else
          match env.mkdirResult argsOutput with
          | .error _ => (1, c.1, c.2 ++ [.tracebackToStderr])
          | .ok _ =>
            match env.moveResult anim argsOutput with
            | .ok _ =>
              (0, (c.1.unlink anim).addFile argsOutput,
               c.2 ++ [.moved anim argsOutput])
            | .error _ => (1, c.1, c.2 ++ [.tracebackToStderr])

/-! ## Basic lemmas about the filesystem model -/

theorem World.hasFile_iff_mem (w : World) (p : String) :
    w.hasFile p = true ↔ p ∈ w.files := by
  simp [World.hasFile]

theorem World.hasFile_unlink_self (w : World) (p : String) :
    (w.unlink p).hasFile p = false := by
  simp [World.unlink, World.hasFile, List.mem_filter]

/-! ## C1 -/

/-- C1: for every successful call, `run_make_it_animatable` returns the
expected output path — the input path with its extension removed and
`_rigged.glb` appended, or `_rigged.blend` appended when the `is_gs` kwarg is
true — and a file exists at that path when the call returns. -/
theorem run_returns_expected_path_and_file_exists
    (nodeDir input_path : String) (node_kwargs : Kwargs)
    (sub : List String → World → World × SubResult) (w : World)
    (ret : String) (w' : World) (tr : List Event)
    (h : run_make_it_animatable nodeDir input_path node_kwargs sub w
          = (.ok ret, w', tr)) :
    ret = withSuffixEmpty input_path
            ++ "_rigged" ++ (if useGs node_kwargs then ".blend" else ".glb")
      ∧ w'.hasFile ret = true := by
  unfold run_make_it_animatable at h
  dsimp only at h
  split at h
  · simp at h
  · next hcond =>
    rw [Prod.mk.injEq, Prod.mk.injEq] at h
    obtain ⟨h1, h2, h3⟩ := h
    rw [Except.ok.injEq] at h1
    subst h1
    subst h2
    refine ⟨rfl, ?_⟩
    simpa [expectedOutput] using not_not.mp hcond

/-- Closed witness for C1 at a concrete input and subprocess oracle. -/
theorem run_returns_expected_path_and_file_exists_witness :
    "/m/model_rigged.glb"
        = withSuffixEmpty "/m/model.glb"
            ++ "_rigged" ++ (if useGs (rigKwargs true false true) then ".blend" else ".glb")
      ∧ (World.mk ["/m/model_rigged.glb"]).hasFile "/m/model_rigged.glb" = true :=
  run_returns_expected_path_and_file_exists "/n" "/m/model.glb"
    (rigKwargs true false true)
    (fun _ _ => (World.mk ["/m/model_rigged.glb"], ⟨"", "", 0⟩))
    (World.mk []) "/m/model_rigged.glb" (World.mk ["/m/model_rigged.glb"])
    [.launch (subprocessCmd "/n" "/m/model.glb" "/m/model_rigged.glb" (rigKwargs true false true))]
    (by rfl)

/-! ## C4 and C9 -/

/-- C4: `run_make_it_animatable` raises exactly when no file exists at the
computed output path after the subprocess returns; the raised exception is a
`RuntimeError` containing the subprocess's stderr, raised after printing the
captured stdout and stderr; otherwise it returns the path without raising. -/
theorem run_raises_iff_output_missing
    (nodeDir input_path : String) (node_kwargs : Kwargs)
    (sub : List String → World → World × SubResult) (w : World)
    (out : String) (cmd : List String) (res : World × SubResult)
    (hout : out = expectedOutput input_path node_kwargs)
    (hcmd : cmd = subprocessCmd nodeDir input_path out node_kwargs)
    (hres : res = sub cmd (preSubprocessWorld out w).1) :
    (res.1.hasFile out = false →
      (run_make_it_animatable nodeDir input_path node_kwargs sub w).1
          = .error ⟨"RuntimeError", "Make-It-Animatable failed. " ++ res.2.stderr⟩
        ∧ (run_make_it_animatable nodeDir input_path node_kwargs sub w).2.2
            = (preSubprocessWorld out w).2
              ++ [.launch cmd,
                  .printLine "Make-It-Animatable subprocess failed:",
                  .printLine res.2.stdout,
                  .printLine res.2.stderr])
    ∧ (res.1.hasFile out = true →
      (run_make_it_animatable nodeDir input_path node_kwargs sub w).1 = .ok out) := by
  subst hout hcmd hres
  constructor
  · intro hmiss
    unfold run_make_it_animatable
    dsimp only
    rw [if_pos]
    · exact ⟨rfl, rfl⟩
    · simp [hmiss]
  · intro hhit
    unfold run_make_it_animatable
    dsimp only
    rw [if_neg]
    simp [hhit]

/-- Closed witness for C4: with an inert subprocess the call raises the
`RuntimeError` carrying the captured stderr, and with a producing subprocess
it returns the computed path. -/
theorem run_raises_iff_output_missing_witness :
    (run_make_it_animatable "/n" "/m/model.glb" (rigKwargs true false true)
        (fun _ w => (w, ⟨"out", "err", 1⟩)) (World.mk [])).1
      = .error ⟨"RuntimeError", "Make-It-Animatable failed. err"⟩ := by
  have h := run_raises_iff_output_missing "/n" "/m/model.glb" (rigKwargs true false true)
      (fun _ w => (w, ⟨"out", "err", 1⟩)) (World.mk [])
      (expectedOutput "/m/model.glb" (rigKwargs true false true))
      (subprocessCmd "/n" "/m/model.glb" (expectedOutput "/m/model.glb" (rigKwargs true false true)) (rigKwargs true false true))
      ((preSubprocessWorld (expectedOutput "/m/model.glb" (rigKwargs true false true)) (World.mk [])).1, ⟨"out", "err", 1⟩)
      rfl rfl rfl
  exact (h.1 (by rfl)).1

/-- C9: the filesystem handed to the subprocess never contains the computed
output path (any stale file was unlinked first), and a successful call
requires the subprocess's resulting filesystem to contain it — so the
existence check and the returned path always refer to a file produced by the
current invocation. -/
theorem run_unlinks_stale_output
    (nodeDir input_path : String) (node_kwargs : Kwargs)
    (sub : List String → World → World × SubResult) (w : World)
    (ret : String) (w' : World) (tr : List Event) :
    (preSubprocessWorld (expectedOutput input_path node_kwargs) w).1.hasFile
        (expectedOutput input_path node_kwargs) = false
    ∧ (run_make_it_animatable nodeDir input_path node_kwargs sub w
          = (.ok ret, w', tr) →
        w' = (sub (subprocessCmd nodeDir input_path (expectedOutput input_path node_kwargs) node_kwargs)
                (preSubprocessWorld (expectedOutput input_path node_kwargs) w).1).1
        ∧ w'.hasFile (expectedOutput input_path node_kwargs) = true) := by
  constructor
  · unfold preSubprocessWorld
    split
    · next hy => exact World.hasFile_unlink_self w _
    · next hn => simpa using hn
  · intro h
    unfold run_make_it_animatable at h
    dsimp only at h
    split at h
    · simp at h
    · next hcond =>
      rw [Prod.mk.injEq, Prod.mk.injEq] at h
      obtain ⟨h1, h2, h3⟩ := h
      rw [Except.ok.injEq] at h1
      subst h2
      exact ⟨rfl, by simpa using not_not.mp hcond⟩

/-- Closed witness for C9 at a concrete stale filesystem. -/
theorem run_unlinks_stale_output_witness :
    (preSubprocessWorld (expectedOutput "/m/model.glb" (rigKwargs true false true))
        (World.mk ["/m/model_rigged.glb"])).1.hasFile
      (expectedOutput "/m/model.glb" (rigKwargs true false true)) = false
    ∧ (World.mk ["/m/model_rigged.glb"])
        = (World.mk ["/m/model_rigged.glb"])
      ∧ (World.mk ["/m/model_rigged.glb"]).hasFile
          (expectedOutput "/m/model.glb" (rigKwargs true false true)) = true := by
  have h := run_unlinks_stale_output "/n" "/m/model.glb" (rigKwargs true false true)
      (fun _ _ => (World.mk ["/m/model_rigged.glb"], ⟨"", "", 0⟩))
      (World.mk ["/m/model_rigged.glb"]) "/m/model_rigged.glb"
      (World.mk ["/m/model_rigged.glb"])
      ([.unlink "/m/model_rigged.glb",
        .launch (subprocessCmd "/n" "/m/model.glb" "/m/model_rigged.glb" (rigKwargs true false true))])
  exact ⟨h.1, h.2 (by rfl)⟩

/-! ## C2 -/

/-- Every command launched by `run_make_it_animatable` is the one built by
`subprocessCmd`. -/
theorem launch_of_run (nodeDir input_path : String) (node_kwargs : Kwargs)
    (sub : List String → World → World × SubResult) (w : World) (cmd : List String)
    (h : Event.launch cmd ∈ (run_make_it_animatable nodeDir input_path node_kwargs sub w).2.2) :
    cmd = subprocessCmd nodeDir input_path (expectedOutput input_path node_kwargs) node_kwargs := by
  unfold run_make_it_animatable at h
  dsimp only at h
  split at h <;>
  · unfold preSubprocessWorld at h
    split at h <;> simp_all

/-- Every command launched during a node invocation via `nodeRunWith` is the
`subprocessCmd` built from the stripped input path and the node's kwargs
dict. -/
theorem launch_of_nodeRunWith (nodeDir : String) (env : SetupEnv)
    (sub : List String → World → World × SubResult)
    (input_model_path : String) (kwargsOf : String → Kwargs) (st : NState)
    (cmd : List String)
    (h : NodeEvent.fsEvent (.launch cmd)
          ∈ (nodeRunWith nodeDir env sub input_model_path kwargsOf st).2.2) :
    cmd = subprocessCmd nodeDir (pyStrip input_model_path)
            (expectedOutput (pyStrip input_model_path) (kwargsOf (pyStrip input_model_path)))
            (kwargsOf (pyStrip input_model_path)) := by
  unfold nodeRunWith at h
  dsimp only at h
  split at h
  · simp at h
  · split at h
    · simp at h
    · split at h
      · simp at h
      · rw [List.mem_append] at h
        rcases h with h | h
        · simp at h
        · rw [List.mem_map] at h
          obtain ⟨e, he, heq⟩ := h
          rw [NodeEvent.fsEvent.injEq] at heq
          subst heq
          exact launch_of_run _ _ _ _ _ _ he

/-- C2: every command either node launches has exactly the flags
`--input <path> --output <path> --kwargs <json>`; the mesh node's kwargs dict
has exactly the keys `is_gs` (false), `no_fingers`, `input_normal`, `bw_fix`,
`inplace` (false), the Gaussian-Splat node's dict additionally
`opacity_threshold` with `is_gs` true, and both key sets are contained in the
six pipeline keys. -/
theorem nodes_subprocess_contract (nodeDir : String) (env : SetupEnv)
    (sub : List String → World → World × SubResult)
    (input_model_path : String) (opacity_threshold : PyVal)
    (no_fingers use_normals weight_postprocess : Bool) (st : NState) :
    (∀ cmd, NodeEvent.fsEvent (.launch cmd)
        ∈ (MakeItAnimatableRig_run nodeDir env sub input_model_path
            no_fingers use_normals weight_postprocess st).2.2 →
      cmd = [venvPython nodeDir, serverScript nodeDir,
             "--input", pyStrip input_model_path,
             "--output", expectedOutput (pyStrip input_model_path)
                           (rigKwargs no_fingers use_normals weight_postprocess),
             "--kwargs", jsonDumps (rigKwargs no_fingers use_normals weight_postprocess)])
    ∧ (∀ cmd, NodeEvent.fsEvent (.launch cmd)
        ∈ (MakeItAnimatableRigGS_run nodeDir env sub input_model_path opacity_threshold
            no_fingers use_normals weight_postprocess st).2.2 →
      cmd = [venvPython nodeDir, serverScript nodeDir,
             "--input", pyStrip input_model_path,
             "--output", expectedOutput (pyStrip input_model_path)
                           (rigGSKwargs opacity_threshold no_fingers use_normals weight_postprocess),
             "--kwargs", jsonDumps (rigGSKwargs opacity_threshold no_fingers use_normals weight_postprocess)])
    ∧ (rigKwargs no_fingers use_normals weight_postprocess).map Prod.fst
        = ["is_gs", "no_fingers", "input_normal", "bw_fix", "inplace"]
    ∧ (rigGSKwargs opacity_threshold no_fingers use_normals weight_postprocess).map Prod.fst
        = ["is_gs", "opacity_threshold", "no_fingers", "input_normal", "bw_fix", "inplace"]
    ∧ (∀ k ∈ (rigKwargs no_fingers use_normals weight_postprocess).map Prod.fst,
        k ∈ ["is_gs", "no_fingers", "input_normal", "bw_fix", "opacity_threshold", "inplace"])
    ∧ (∀ k ∈ (rigGSKwargs opacity_threshold no_fingers use_normals weight_postprocess).map Prod.fst,
        k ∈ ["is_gs", "no_fingers", "input_normal", "bw_fix", "opacity_threshold", "inplace"])
    ∧ kwGet (rigKwargs no_fingers use_normals weight_postprocess) "is_gs" (.pyBool false)
        = .pyBool false
    ∧ kwGet (rigGSKwargs opacity_threshold no_fingers use_normals weight_postprocess) "is_gs" (.pyBool false)
        = .pyBool true := by
  refine ⟨?_, ?_, rfl, rfl, ?_, ?_, rfl, rfl⟩
  · intro cmd h
    exact launch_of_nodeRunWith _ _ _ _ _ _ _ h
  · intro cmd h
    exact launch_of_nodeRunWith _ _ _ _ _ _ _ h
  · intro k hk
    simp only [rigKwargs, List.map_cons, List.map_nil, List.mem_cons, List.not_mem_nil,
               or_false] at hk
    rcases hk with rfl | rfl | rfl | rfl | rfl <;> simp
  · intro k hk
    simp only [rigGSKwargs, List.map_cons, List.map_nil, List.mem_cons, List.not_mem_nil,
               or_false] at hk
    rcases hk with rfl | rfl | rfl | rfl | rfl | rfl <;> simp

/-- Closed witness for C2: a concrete mesh-node invocation whose single
launched command is the contractual argument vector. -/
theorem nodes_subprocess_contract_witness :
    subprocessCmd "/n" "/m/model.glb" "/m/model_rigged.glb" (rigKwargs true false true)
      = [venvPython "/n", serverScript "/n",
         "--input", pyStrip "/m/model.glb",
         "--output", expectedOutput (pyStrip "/m/model.glb") (rigKwargs true false true),
         "--kwargs", jsonDumps (rigKwargs true false true)] := by
  have h := nodes_subprocess_contract "/n"
      ⟨.ok (), [], .ok (), .ok (), .ok (), .ok (), .ok ()⟩
      (fun _ w => (w, ⟨"", "", 0⟩)) "/m/model.glb" (.pyNum "0.01") true false true
      ⟨⟨true, true, true, true, true, true, true⟩, ⟨["/m/model.glb"]⟩⟩
  exact h.1 (subprocessCmd "/n" "/m/model.glb" "/m/model_rigged.glb" (rigKwargs true false true))
    (by decide)

/-! ## C10 -/

/-- Validation behaviour shared by both node `run` methods: when setup
succeeds but the stripped input path is empty or names no existing file, the
invocation raises the corresponding `RuntimeError`, leaves the filesystem
untouched, and its trace holds setup actions only (in particular no
subprocess launch and no unlink). -/
theorem nodeRunWith_validation (nodeDir : String) (env : SetupEnv)
    (sub : List String → World → World × SubResult)
    (input_model_path : String) (kwargsOf : String → Kwargs) (st : NState)
    (hsetup : (setup_make_it_animatable env st.setup).1 = Except.ok ())
    (hbad : pyStrip input_model_path = ""
            ∨ st.world.hasFile (pyStrip input_model_path) = false) :
    (nodeRunWith nodeDir env sub input_model_path kwargsOf st).1
        = .error ⟨"RuntimeError",
            if pyStrip input_model_path = "" then "input_model_path is empty."
            else "Input model not found: " ++ pyStrip input_model_path⟩
      ∧ (nodeRunWith nodeDir env sub input_model_path kwargsOf st).2.1.world = st.world
      ∧ ∀ e ∈ (nodeRunWith nodeDir env sub input_model_path kwargsOf st).2.2,
          ∃ a, e = NodeEvent.setupAct a := by
  unfold nodeRunWith
  dsimp only
  rw [hsetup]
  dsimp only
  by_cases hempty : pyStrip input_model_path = ""
  · rw [if_pos hempty, if_pos hempty]
    refine ⟨rfl, rfl, ?_⟩
    intro e he
    rw [List.mem_map] at he
    obtain ⟨a, _, ha⟩ := he
    exact ⟨a, ha.symm⟩
  · rcases hbad with h | h
    · exact absurd h hempty
    · rw [if_neg hempty, if_neg hempty, if_pos (by simp [h])]
      refine ⟨rfl, rfl, ?_⟩
      intro e he
      rw [List.mem_map] at he
      obtain ⟨a, _, ha⟩ := he
      exact ⟨a, ha.symm⟩

/-- C10: both node `run` methods strip the input path and, when the stripped
path is empty or no file exists there, raise a `RuntimeError` with the
filesystem unchanged and no event beyond the setup actions — so no subprocess
is launched and nothing is unlinked. -/
theorem nodes_validate_input_path (nodeDir : String) (env : SetupEnv)
    (sub : List String → World → World × SubResult)
    (input_model_path : String) (opacity_threshold : PyVal)
    (no_fingers use_normals weight_postprocess : Bool) (st : NState)
    (hsetup : (setup_make_it_animatable env st.setup).1 = Except.ok ())
    (hbad : pyStrip input_model_path = ""
            ∨ st.world.hasFile (pyStrip input_model_path) = false) :
    ((MakeItAnimatableRig_run nodeDir env sub input_model_path
        no_fingers use_normals weight_postprocess st).1
        = .error ⟨"RuntimeError",
            if pyStrip input_model_path = "" then "input_model_path is empty."
            else "Input model not found: " ++ pyStrip input_model_path⟩
      ∧ (MakeItAnimatableRig_run nodeDir env sub input_model_path
          no_fingers use_normals weight_postprocess st).2.1.world = st.world
      ∧ ∀ e ∈ (MakeItAnimatableRig_run nodeDir env sub input_model_path
          no_fingers use_normals weight_postprocess st).2.2,
          ∃ a, e = NodeEvent.setupAct a)
    ∧ ((MakeItAnimatableRigGS_run nodeDir env sub input_model_path opacity_threshold
        no_fingers use_normals weight_postprocess st).1
        = .error ⟨"RuntimeError",
            if pyStrip input_model_path = "" then "input_model_path is empty."
            else "Input model not found: " ++ pyStrip input_model_path⟩
      ∧ (MakeItAnimatableRigGS_run nodeDir env sub input_model_path opacity_threshold
          no_fingers use_normals weight_postprocess st).2.1.world = st.world
      ∧ ∀ e ∈ (MakeItAnimatableRigGS_run nodeDir env sub input_model_path opacity_threshold
          no_fingers use_normals weight_postprocess st).2.2,
          ∃ a, e = NodeEvent.setupAct a) :=
  ⟨nodeRunWith_validation nodeDir env sub input_model_path _ st hsetup hbad,
   nodeRunWith_validation nodeDir env sub input_model_path _ st hsetup hbad⟩

/-- Closed witness for C10: a whitespace-only input path on a completed-setup
state raises the empty-path `RuntimeError` in the mesh node. -/
theorem nodes_validate_input_path_witness :
    (MakeItAnimatableRig_run "/n" ⟨.ok (), [], .ok (), .ok (), .ok (), .ok (), .ok ()⟩
        (fun _ w => (w, ⟨"", "", 0⟩)) "  " true false true
        ⟨⟨true, true, true, true, true, true, true⟩, ⟨[]⟩⟩).1
      = .error ⟨"RuntimeError",
          if pyStrip "  " = "" then "input_model_path is empty."
          else "Input model not found: " ++ pyStrip "  "⟩ :=
  (nodes_validate_input_path "/n" ⟨.ok (), [], .ok (), .ok (), .ok (), .ok (), .ok ()⟩
      (fun _ w => (w, ⟨"", "", 0⟩)) "  " (.pyNum "0.01") true false true
      ⟨⟨true, true, true, true, true, true, true⟩, ⟨[]⟩⟩
      (by rfl) (.inl (by decide))).1.1

/-! ## C8 -/

def SEvent.isUnlinkAttempt : SEvent → Bool
  | .unlinkAttempt _ => true
  | _ => false

theorem World.hasFile_addFile_self (w : World) (p : String) :
    (w.addFile p).hasFile p = true := by
  unfold World.addFile
  split
  · assumption
  · simp [World.hasFile]

/-- The cleanup loop's event list is exactly one `unlinkAttempt` per truthy
temp path, in order, whatever the deletion oracle answers. -/
theorem cleanupTemps_events (env : ServerEnv) (w : World)
    (ps : List (Option String)) :
    (cleanupTemps env w ps).2
      = (ps.filter pyTruthyOpt).map (fun po => SEvent.unlinkAttempt (po.getD "")) := by
  induction ps generalizing w with
  | nil => rfl
  | cons po rest ih =>
    unfold cleanupTemps
    by_cases hpo : pyTruthyOpt po
    · rw [if_pos hpo]
      cases henv : env.unlinkResult (po.getD "") <;>
        simp [hpo, henv, ih, List.filter_cons]
    · rw [if_neg hpo]
      simp only [List.filter_cons]
      rw [if_neg (by simp [hpo])]
      exact ih w

theorem cleanupTemps_no_traceback (env : ServerEnv) (w : World)
    (ps : List (Option String)) :
    SEvent.tracebackToStderr ∉ (cleanupTemps env w ps).2 := by
  rw [cleanupTemps_events]
  simp

theorem cleanupTemps_filter_self (env : ServerEnv) (w : World)
    (ps : List (Option String)) :
    (cleanupTemps env w ps).2.filter SEvent.isUnlinkAttempt
      = (cleanupTemps env w ps).2 := by
  rw [cleanupTemps_events, List.filter_eq_self]
  intro e he
  rw [List.mem_map] at he
  obtain ⟨po, _, rfl⟩ := he
  rfl

/-- C8: after a successful pipeline run the server attempts to delete exactly
the truthy members of the eight `db` temp paths, in source order; and the
deletion oracle's answers (any exception is swallowed) change neither the exit
code nor the event trace of the run. -/
theorem server_cleanup_exact_and_harmless
    (env : ServerEnv) (argsInput argsOutput : String) (w : World)
    (kw : Kwargs) (db : DB)
    (hkw : env.kwargsParse = .ok kw)
    (hdb : env.pipeline argsInput kw = .ok db) :
    ((serverMain env argsInput argsOutput w).2.2.filter SEvent.isUnlinkAttempt
        = ((tempFilesToDelete db).filter pyTruthyOpt).map
            (fun po => SEvent.unlinkAttempt (po.getD "")))
    ∧ ∀ f, (serverMain { env with unlinkResult := f } argsInput argsOutput w).1
            = (serverMain env argsInput argsOutput w).1
        ∧ (serverMain { env with unlinkResult := f } argsInput argsOutput w).2.2
            = (serverMain env argsInput argsOutput w).2.2 := by
  constructor
  · unfold serverMain
    rw [hkw]
    dsimp only
    rw [hdb]
    dsimp only
    cases hanim : db.anim_path with
    | none =>
      rw [List.filter_append, cleanupTemps_filter_self, cleanupTemps_events]
      simp [SEvent.isUnlinkAttempt]
    | some anim =>
      dsimp only
      by_cases hfbx : pyLower (pathSuffix anim) = ".fbx"
      · rw [if_pos hfbx]
        cases hc : env.convert anim argsOutput (some argsInput) <;>
        · rw [List.filter_append, cleanupTemps_filter_self, cleanupTemps_events]
          simp [SEvent.isUnlinkAttempt]
      · rw [if_neg hfbx]
        cases hm : env.mkdirResult argsOutput
        · rw [List.filter_append, cleanupTemps_filter_self, cleanupTemps_events]
          simp [SEvent.isUnlinkAttempt]
        · cases hmv : env.moveResult anim argsOutput <;>
          · rw [List.filter_append, cleanupTemps_filter_self, cleanupTemps_events]
            simp [SEvent.isUnlinkAttempt]
  · intro f
    unfold serverMain
    dsimp only
    rw [hkw]
    dsimp only
    rw [hdb]
    dsimp only
    cases hanim : db.anim_path with
    | none => simp [cleanupTemps_events]
    | some anim =>
      dsimp only
      by_cases hfbx : pyLower (pathSuffix anim) = ".fbx"
      · rw [if_pos hfbx, if_pos hfbx]
        cases hc : env.convert anim argsOutput (some argsInput) <;>
          simp [hc, cleanupTemps_events]
      · rw [if_neg hfbx, if_neg hfbx]
        cases hm : env.mkdirResult argsOutput
        · simp [hm, cleanupTemps_events]
        · cases hmv : env.moveResult anim argsOutput <;>
            simp [hm, hmv, cleanupTemps_events]

/-- Closed witness for C8: a concrete `db` with truthy, `None` and
empty-string temp paths; the attempts are exactly the two truthy paths and a
failing deletion oracle leaves exit code and trace unchanged. -/
theorem server_cleanup_exact_and_harmless_witness :
    ((serverMain
        ⟨.ok [], fun _ _ => .ok ⟨some "/t/a", none, some "", some "/t/b", none, none, none, none, some "/o/a.fbx"⟩,
         fun _ => .ok (), fun _ _ _ => .ok (), fun _ => .ok (), fun _ _ => .ok ()⟩
        "/i/in.glb" "/o/out.glb" ⟨["/t/a", "/t/b"]⟩).2.2.filter SEvent.isUnlinkAttempt
      = ((tempFilesToDelete
            ⟨some "/t/a", none, some "", some "/t/b", none, none, none, none, some "/o/a.fbx"⟩).filter
            pyTruthyOpt).map (fun po => SEvent.unlinkAttempt (po.getD "")))
    ∧ (serverMain
        ⟨.ok [], fun _ _ => .ok ⟨some "/t/a", none, some "", some "/t/b", none, none, none, none, some "/o/a.fbx"⟩,
         fun _ => .error ⟨"OSError", "busy"⟩, fun _ _ _ => .ok (), fun _ => .ok (), fun _ _ => .ok ()⟩
        "/i/in.glb" "/o/out.glb" ⟨["/t/a", "/t/b"]⟩).1
      = (serverMain
          ⟨.ok [], fun _ _ => .ok ⟨some "/t/a", none, some "", some "/t/b", none, none, none, none, some "/o/a.fbx"⟩,
           fun _ => .ok (), fun _ _ _ => .ok (), fun _ => .ok (), fun _ _ => .ok ()⟩
          "/i/in.glb" "/o/out.glb" ⟨["/t/a", "/t/b"]⟩).1 := by
  have h := server_cleanup_exact_and_harmless
      ⟨.ok [], fun _ _ => .ok ⟨some "/t/a", none, some "", some "/t/b", none, none, none, none, some "/o/a.fbx"⟩,
       fun _ => .ok (), fun _ _ _ => .ok (), fun _ => .ok (), fun _ _ => .ok ()⟩
      "/i/in.glb" "/o/out.glb" ⟨["/t/a", "/t/b"]⟩ []
      ⟨some "/t/a", none, some "", some "/t/b", none, none, none, none, some "/o/a.fbx"⟩
      rfl rfl
  exact ⟨h.1, (h.2 (fun _ => .error ⟨"OSError", "busy"⟩)).1⟩

/-! ## C3 -/

/-- C3: the server exits 0 or 1, and it exits 0 exactly when the run succeeds
(no traceback printed to stderr); on exit 0 the output file exists at the
`--output` path, and on exit 1 the last event is the traceback printed to
stderr. -/
theorem server_exit_code_contract (env : ServerEnv)
    (argsInput argsOutput : String) (w : World) :
    ((serverMain env argsInput argsOutput w).1 = 0
        ∨ (serverMain env argsInput argsOutput w).1 = 1)
    ∧ ((serverMain env argsInput argsOutput w).1 = 0
        ↔ SEvent.tracebackToStderr ∉ (serverMain env argsInput argsOutput w).2.2)
    ∧ ((serverMain env argsInput argsOutput w).1 = 0 →
        (serverMain env argsInput argsOutput w).2.1.hasFile argsOutput = true)
    ∧ ((serverMain env argsInput argsOutput w).1 = 1 →
        (serverMain env argsInput argsOutput w).2.2.getLast?
          = some SEvent.tracebackToStderr) := by
  unfold serverMain
  cases hkw : env.kwargsParse with
  | error e => simp
  | ok kw =>
    dsimp only
    cases hdb : env.pipeline argsInput kw with
    | error e => simp
    | ok db =>
      dsimp only
      have hnt := cleanupTemps_no_traceback env w (tempFilesToDelete db)
      cases hanim : db.anim_path with
      | none => simp [List.getLast?_concat, hnt]
      | some anim =>
        dsimp only
        by_cases hfbx : pyLower (pathSuffix anim) = ".fbx"
        · rw [if_pos hfbx]
          cases hc : env.convert anim argsOutput (some argsInput)
          · simp [List.getLast?_concat, hnt]
          · simp [World.hasFile_addFile_self, hnt]
        · rw [if_neg hfbx]
          cases hm : env.mkdirResult argsOutput
          · simp [List.getLast?_concat, hnt]
          · cases hmv : env.moveResult anim argsOutput
            · simp [List.getLast?_concat, hnt]
            · simp [World.hasFile_addFile_self, hnt]

/-- Closed witness for C3: a fully successful concrete run exits 0 with the
output file present, and a failing pipeline exits 1 with the traceback as the
last stderr event. -/
theorem server_exit_code_contract_witness :
    (serverMain
        ⟨.ok [], fun _ _ => .ok ⟨none, none, none, none, none, none, none, none, some "/o/x.glb"⟩,
         fun _ => .ok (), fun _ _ _ => .ok (), fun _ => .ok (), fun _ _ => .ok ()⟩
        "/i/in.glb" "/o/out.glb" ⟨[]⟩).2.1.hasFile "/o/out.glb" = true
    ∧ (serverMain
        ⟨.ok [], fun _ _ => .error ⟨"RuntimeError", "pipeline crashed"⟩,
         fun _ => .ok (), fun _ _ _ => .ok (), fun _ => .ok (), fun _ _ => .ok ()⟩
        "/i/in.glb" "/o/out.glb" ⟨[]⟩).2.2.getLast? = some SEvent.tracebackToStderr := by
  have h1 := server_exit_code_contract
      ⟨.ok [], fun _ _ => .ok ⟨none, none, none, none, none, none, none, none, some "/o/x.glb"⟩,
       fun _ => .ok (), fun _ _ _ => .ok (), fun _ => .ok (), fun _ _ => .ok ()⟩
      "/i/in.glb" "/o/out.glb" ⟨[]⟩
  have h2 := server_exit_code_contract
      ⟨.ok [], fun _ _ => .error ⟨"RuntimeError", "pipeline crashed"⟩,
       fun _ => .ok (), fun _ _ _ => .ok (), fun _ => .ok (), fun _ _ => .ok ()⟩
      "/i/in.glb" "/o/out.glb" ⟨[]⟩
  exact ⟨h1.2.2.1 (by rfl), h2.2.2.2 (by rfl)⟩

/-! ## Step lemmas for the setup phases (towards C6 and C7) -/

theorem clone_repo_skip (env : SetupEnv) (s : SetupState) (h : s.repoExists = true) :
    clone_repo env s = (.ok (), s, []) := by
  simp [clone_repo, h]

theorem clone_repo_run_ok (env : SetupEnv) (s : SetupState)
    (h : s.repoExists = false) (ho : env.cloneResult = .ok ()) :
    clone_repo env s = (.ok (), { s with repoExists := true }, [.gitClone]) := by
  simp [clone_repo, h, ho]

theorem clone_repo_run_err (env : SetupEnv) (s : SetupState) (e : PyErr)
    (h : s.repoExists = false) (ho : env.cloneResult = .error e) :
    clone_repo env s = (.error e, { s with repoExists := true }, [.gitClone]) := by
  simp [clone_repo, h, ho]

theorem apply_patches_skip (env : SetupEnv) (s : SetupState)
    (h : s.patchDirExists = false) :
    apply_patches env s = (.ok (), s, []) := by
  simp [apply_patches, h]

theorem apply_patches_run (env : SetupEnv) (s : SetupState)
    (h : s.patchDirExists = true) :
    apply_patches env s
      = ((applyPatchLoop env.patchOutcomes 0).1, s, (applyPatchLoop env.patchOutcomes 0).2) := by
  simp [apply_patches, h]

theorem download_pretrained_models_skip (env : SetupEnv) (s : SetupState)
    (h : s.modelsNonempty = true) :
    download_pretrained_models env s = (.ok (), s, []) := by
  simp [download_pretrained_models, h]

theorem download_pretrained_models_run_ok (env : SetupEnv) (s : SetupState)
    (h : s.modelsNonempty = false) (ho : env.downloadModelsResult = .ok ()) :
    download_pretrained_models env s
      = (.ok (), { s with modelsNonempty := true }, [.downloadModels]) := by
  simp [download_pretrained_models, h, ho]

theorem download_pretrained_models_run_err (env : SetupEnv) (s : SetupState) (e : PyErr)
    (h : s.modelsNonempty = false) (ho : env.downloadModelsResult = .error e) :
    download_pretrained_models env s = (.error e, s, [.downloadModels]) := by
  simp [download_pretrained_models, h, ho]

theorem download_mixamo_bones_skip (env : SetupEnv) (s : SetupState)
    (h : s.mixamoNonempty = true) :
    download_mixamo_bones env s = (.ok (), s, []) := by
  simp [download_mixamo_bones, h]

theorem download_mixamo_bones_run_ok (env : SetupEnv) (s : SetupState)
    (h : s.mixamoNonempty = false) (ho : env.downloadMixamoResult = .ok ()) :
    download_mixamo_bones env s
      = (.ok (), { s with mixamoNonempty := true }, [.downloadMixamo]) := by
  simp [download_mixamo_bones, h, ho]

theorem download_mixamo_bones_run_err (env : SetupEnv) (s : SetupState) (e : PyErr)
    (h : s.mixamoNonempty = false) (ho : env.downloadMixamoResult = .error e) :
    download_mixamo_bones env s = (.error e, s, [.downloadMixamo]) := by
  simp [download_mixamo_bones, h, ho]

theorem ensure_repo_venv_skip_noreq (env : SetupEnv) (s : SetupState)
    (h : s.requirementsExist = false) :
    ensure_repo_venv env s = (.ok (), s, []) := by
  simp [ensure_repo_venv, h]

theorem ensure_repo_venv_skip_pip (env : SetupEnv) (s : SetupState)
    (h : s.pipExists = true) :
    ensure_repo_venv env s = (.ok (), s, []) := by
  simp [ensure_repo_venv, h]

theorem ensure_repo_venv_run_ok (env : SetupEnv) (s : SetupState)
    (hr : s.requirementsExist = true) (hp : s.pipExists = false)
    (h1 : env.uvVenvResult = .ok ()) (h2 : env.ensurepipResult = .ok ())
    (h3 : env.pipInstallResult = .ok ()) :
    ensure_repo_venv env s
      = (.ok (), { s with pipExists := true }, [.uvVenv, .ensurepip, .pipInstall]) := by
  simp [ensure_repo_venv, hr, hp, h1, h2, h3]

theorem ensure_repo_venv_uv_err (env : SetupEnv) (s : SetupState) (e : PyErr)
    (hr : s.requirementsExist = true) (hp : s.pipExists = false)
    (hu : env.uvVenvResult = .error e) :
    ensure_repo_venv env s = (.error e, s, [.uvVenv]) := by
  simp [ensure_repo_venv, hr, hp, hu]

theorem ensure_repo_venv_ep_err (env : SetupEnv) (s : SetupState) (e : PyErr)
    (hr : s.requirementsExist = true) (hp : s.pipExists = false)
    (hu : env.uvVenvResult = .ok ()) (he : env.ensurepipResult = .error e) :
    ensure_repo_venv env s = (.error e, s, [.uvVenv, .ensurepip]) := by
  simp [ensure_repo_venv, hr, hp, hu, he]

theorem ensure_repo_venv_pip_err (env : SetupEnv) (s : SetupState) (e : PyErr)
    (hr : s.requirementsExist = true) (hp : s.pipExists = false)
    (hu : env.uvVenvResult = .ok ()) (he : env.ensurepipResult = .ok ())
    (hpi : env.pipInstallResult = .error e) :
    ensure_repo_venv env s = (.error e, s, [.uvVenv, .ensurepip, .pipInstall]) := by
  simp [ensure_repo_venv, hr, hp, hu, he, hpi]

theorem setup_short_circuit (env : SetupEnv) (s : SetupState)
    (h : s.setupComplete = true) :
    setup_make_it_animatable env s = (.ok (), s, []) := by
  simp [setup_make_it_animatable, h]

/-! ### Suffix decomposition of the setup chain (proof infrastructure)

`setupFromK` is the tail of `setup_make_it_animatable` from its K-th step on,
including the final raising of the `setup_complete` flag; the equality
`setup_eq_setupFrom1` ties the decomposition to the source translation. -/

def setupFrom5 (env : SetupEnv) (s : SetupState) : StepResult :=
  let p := ensure_repo_venv env s
  match p.1 with
  | .error e => (.error e, p.2)
  | .ok _ => (.ok (), { p.2.1 with setupComplete := true }, p.2.2)

def setupFrom4 (env : SetupEnv) (s : SetupState) : StepResult :=
  let p := download_mixamo_bones env s
  match p.1 with
  | .error e => (.error e, p.2)
  | .ok _ =>
    let q := setupFrom5 env p.2.1
    (q.1, q.2.1, p.2.2 ++ q.2.2)

def setupFrom3 (env : SetupEnv) (s : SetupState) : StepResult :=
  let p := download_pretrained_models env s
  match p.1 with
  | .error e => (.error e, p.2)
  | .ok _ =>
    let q := setupFrom4 env p.2.1
    (q.1, q.2.1, p.2.2 ++ q.2.2)

def setupFrom2 (env : SetupEnv) (s : SetupState) : StepResult :=
  let p := apply_patches env s
  match p.1 with
  | .error e => (.error e, p.2)
  | .ok _ =>
    let q := setupFrom3 env p.2.1
    (q.1, q.2.1, p.2.2 ++ q.2.2)

def setupFrom1 (env : SetupEnv) (s : SetupState) : StepResult :=
  let p := clone_repo env s
  match p.1 with
  | .error e => (.error e, p.2)
  | .ok _ =>
    let q := setupFrom2 env p.2.1
    (q.1, q.2.1, p.2.2 ++ q.2.2)

theorem setup_eq_setupFrom1 (env : SetupEnv) (s : SetupState)
    (hs : s.setupComplete = false) :
    setup_make_it_animatable env s = setupFrom1 env s := by
  unfold setup_make_it_animatable setupFrom1 setupFrom2 setupFrom3 setupFrom4 setupFrom5
  simp only [hs, Bool.false_eq_true, if_false]
  cases h1 : (clone_repo env s).1
  · rfl
  · dsimp only
    cases h2 : (apply_patches env (clone_repo env s).2.1).1
    · rfl
    · dsimp only
      cases h3 : (download_pretrained_models env
          (apply_patches env (clone_repo env s).2.1).2.1).1
      · simp
      · dsimp only
        cases h4 : (download_mixamo_bones env
            (download_pretrained_models env
              (apply_patches env (clone_repo env s).2.1).2.1).2.1).1
        · simp
        · dsimp only
          cases h5 : (ensure_repo_venv env
              (download_mixamo_bones env
                (download_pretrained_models env
                  (apply_patches env (clone_repo env s).2.1).2.1).2.1).2.1).1
          · simp
          · simp

/-! ### Success characterization of the setup chain -/

theorem setupFrom5_ok_char (env : SetupEnv) (s : SetupState)
    (hok : (setupFrom5 env s).1 = .ok ()) :
    (setupFrom5 env s).2.2
      = (if s.requirementsExist = true ∧ s.pipExists = false
         then [Action.uvVenv, Action.ensurepip, Action.pipInstall]
         else ([] : List Action))
    ∧ (setupFrom5 env s).2.1.setupComplete = true := by
  by_cases hr : s.requirementsExist = true
  · by_cases hp : s.pipExists = true
    · simp [setupFrom5, ensure_repo_venv_skip_pip env s hp, hr, hp]
    · have hp' : s.pipExists = false := by simpa using hp
      cases hu : env.uvVenvResult with
      | error e => simp [setupFrom5, ensure_repo_venv, hr, hp', hu] at hok
      | ok u =>
        cases u
        cases he : env.ensurepipResult with
        | error e => simp [setupFrom5, ensure_repo_venv, hr, hp', hu, he] at hok
        | ok u =>
          cases u
          cases hpi : env.pipInstallResult with
          | error e => simp [setupFrom5, ensure_repo_venv, hr, hp', hu, he, hpi] at hok
          | ok u =>
            cases u
            simp [setupFrom5, ensure_repo_venv_run_ok env s hr hp' hu he hpi, hr, hp']
  · have hr' : s.requirementsExist = false := by simpa using hr
    simp [setupFrom5, ensure_repo_venv_skip_noreq env s hr', hr]

theorem setupFrom4_ok_char (env : SetupEnv) (s : SetupState)
    (hok : (setupFrom4 env s).1 = .ok ()) :
    (setupFrom4 env s).2.2
      = (if s.mixamoNonempty = true then ([] : List Action) else [Action.downloadMixamo])
        ++ (if s.requirementsExist = true ∧ s.pipExists = false
            then [Action.uvVenv, Action.ensurepip, Action.pipInstall]
            else ([] : List Action))
    ∧ (setupFrom4 env s).2.1.setupComplete = true := by
  by_cases hm : s.mixamoNonempty = true
  · simp only [setupFrom4, download_mixamo_bones_skip env s hm] at hok ⊢
    obtain ⟨ht, hc⟩ := setupFrom5_ok_char env s hok
    simp [hm, ht, hc]
  · have hm' : s.mixamoNonempty = false := by simpa using hm
    cases hmx : env.downloadMixamoResult with
    | error e => simp [setupFrom4, download_mixamo_bones_run_err env s e hm' hmx] at hok
    | ok u =>
      cases u
      simp only [setupFrom4, download_mixamo_bones_run_ok env s hm' hmx] at hok ⊢
      obtain ⟨ht, hc⟩ := setupFrom5_ok_char env { s with mixamoNonempty := true } hok
      simp only [ht, hc, hm]
      simp

theorem setupFrom3_ok_char (env : SetupEnv) (s : SetupState)
    (hok : (setupFrom3 env s).1 = .ok ()) :
    (setupFrom3 env s).2.2
      = (if s.modelsNonempty = true then ([] : List Action) else [Action.downloadModels])
        ++ (if s.mixamoNonempty = true then ([] : List Action) else [Action.downloadMixamo])
        ++ (if s.requirementsExist = true ∧ s.pipExists = false
            then [Action.uvVenv, Action.ensurepip, Action.pipInstall]
            else ([] : List Action))
    ∧ (setupFrom3 env s).2.1.setupComplete = true := by
  by_cases hm : s.modelsNonempty = true
  · simp only [setupFrom3, download_pretrained_models_skip env s hm] at hok ⊢
    obtain ⟨ht, hc⟩ := setupFrom4_ok_char env s hok
    simp [hm, ht, hc]
  · have hm' : s.modelsNonempty = false := by simpa using hm
    cases hmx : env.downloadModelsResult with
    | error e => simp [setupFrom3, download_pretrained_models_run_err env s e hm' hmx] at hok
    | ok u =>
      cases u
      simp only [setupFrom3, download_pretrained_models_run_ok env s hm' hmx] at hok ⊢
      obtain ⟨ht, hc⟩ := setupFrom4_ok_char env { s with modelsNonempty := true } hok
      simp only [ht, hc, hm]
      simp

theorem setupFrom2_ok_char (env : SetupEnv) (s : SetupState)
    (hok : (setupFrom2 env s).1 = .ok ()) :
    (setupFrom2 env s).2.2
      = (if s.patchDirExists = true then (applyPatchLoop env.patchOutcomes 0).2
         else ([] : List Action))
        ++ (if s.modelsNonempty = true then ([] : List Action) else [Action.downloadModels])
        ++ (if s.mixamoNonempty = true then ([] : List Action) else [Action.downloadMixamo])
        ++ (if s.requirementsExist = true ∧ s.pipExists = false
            then [Action.uvVenv, Action.ensurepip, Action.pipInstall]
            else ([] : List Action))
    ∧ (setupFrom2 env s).2.1.setupComplete = true := by
  by_cases hp : s.patchDirExists = true
  · simp only [setupFrom2, apply_patches_run env s hp] at hok ⊢
    cases hl : (applyPatchLoop env.patchOutcomes 0).1 with
    | error e => rw [hl] at hok; simp at hok
    | ok u =>
      cases u
      rw [hl] at hok
      dsimp only at hok ⊢
      obtain ⟨ht, hc⟩ := setupFrom3_ok_char env s hok
      simp [hp, ht, hc, List.append_assoc]
  · have hp' : s.patchDirExists = false := by simpa using hp
    simp only [setupFrom2, apply_patches_skip env s hp'] at hok ⊢
    obtain ⟨ht, hc⟩ := setupFrom3_ok_char env s hok
    simp [hp, ht, hc]

theorem setupFrom1_ok_char (env : SetupEnv) (s : SetupState)
    (hok : (setupFrom1 env s).1 = .ok ()) :
    (setupFrom1 env s).2.2
      = (if s.repoExists = true then ([] : List Action) else [Action.gitClone])
        ++ (if s.patchDirExists = true then (applyPatchLoop env.patchOutcomes 0).2
            else ([] : List Action))
        ++ (if s.modelsNonempty = true then ([] : List Action) else [Action.downloadModels])
        ++ (if s.mixamoNonempty = true then ([] : List Action) else [Action.downloadMixamo])
        ++ (if s.requirementsExist = true ∧ s.pipExists = false
            then [Action.uvVenv, Action.ensurepip, Action.pipInstall]
            else ([] : List Action))
    ∧ (setupFrom1 env s).2.1.setupComplete = true := by
  by_cases hr : s.repoExists = true
  · simp only [setupFrom1, clone_repo_skip env s hr] at hok ⊢
    obtain ⟨ht, hc⟩ := setupFrom2_ok_char env s hok
    simp [hr, ht, hc]
  · have hr' : s.repoExists = false := by simpa using hr
    cases hco : env.cloneResult with
    | error e => simp [setupFrom1, clone_repo_run_err env s e hr' hco] at hok
    | ok u =>
      cases u
      simp only [setupFrom1, clone_repo_run_ok env s hr' hco] at hok ⊢
      obtain ⟨ht, hc⟩ := setupFrom2_ok_char env { s with repoExists := true } hok
      simp only [ht, hc, hr]
      simp

/-! ## C6 -/

/-- C6: a successful first call of `setup_make_it_animatable` performs, in
this order, repository clone (skipped if the repo directory exists), patch
application (skipped when the patches directory is missing), pretrained-model
download (skipped if its target is nonempty), Mixamo-bones download (skipped
if its target is nonempty) and venv creation with dependency install (skipped
if the venv's pip exists); afterwards the `setup_complete` flag is set and
every subsequent call returns immediately performing no step. -/
theorem setup_steps_in_order_and_idempotent (env : SetupEnv) (s : SetupState)
    (hs : s.setupComplete = false)
    (hok : (setup_make_it_animatable env s).1 = .ok ()) :
    (setup_make_it_animatable env s).2.2
      = (if s.repoExists = true then ([] : List Action) else [Action.gitClone])
        ++ (if s.patchDirExists = true then (applyPatchLoop env.patchOutcomes 0).2
            else ([] : List Action))
        ++ (if s.modelsNonempty = true then ([] : List Action) else [Action.downloadModels])
        ++ (if s.mixamoNonempty = true then ([] : List Action) else [Action.downloadMixamo])
        ++ (if s.requirementsExist = true ∧ s.pipExists = false
            then [Action.uvVenv, Action.ensurepip, Action.pipInstall]
            else ([] : List Action))
    ∧ (setup_make_it_animatable env s).2.1.setupComplete = true
    ∧ ∀ env', setup_make_it_animatable env' (setup_make_it_animatable env s).2.1
        = (.ok (), (setup_make_it_animatable env s).2.1, []) := by
  rw [setup_eq_setupFrom1 env s hs] at hok ⊢
  obtain ⟨ht, hc⟩ := setupFrom1_ok_char env s hok
  exact ⟨ht, hc, fun env' => setup_short_circuit env' _ hc⟩

/-- Closed witness for C6 at a concrete state needing every step: the trace is
the five phases in order and a second call is a no-op. -/
theorem setup_steps_in_order_and_idempotent_witness :
    (setup_make_it_animatable
        ⟨.ok (), [.ok, .tolerated], .ok (), .ok (), .ok (), .ok (), .ok ()⟩
        ⟨false, true, false, false, true, false, false⟩).2.2
      = [Action.gitClone, .applyPatch 0, .applyPatch 1, .downloadModels,
         .downloadMixamo, .uvVenv, .ensurepip, .pipInstall]
    ∧ (setup_make_it_animatable
        ⟨.ok (), [.ok, .tolerated], .ok (), .ok (), .ok (), .ok (), .ok ()⟩
        ⟨false, true, false, false, true, false, false⟩).2.1.setupComplete = true
    ∧ setup_make_it_animatable
        ⟨.ok (), [.ok, .tolerated], .ok (), .ok (), .ok (), .ok (), .ok ()⟩
        (setup_make_it_animatable
          ⟨.ok (), [.ok, .tolerated], .ok (), .ok (), .ok (), .ok (), .ok ()⟩
          ⟨false, true, false, false, true, false, false⟩).2.1
      = (.ok (), (setup_make_it_animatable
          ⟨.ok (), [.ok, .tolerated], .ok (), .ok (), .ok (), .ok (), .ok ()⟩
          ⟨false, true, false, false, true, false, false⟩).2.1, []) := by
  have h := setup_steps_in_order_and_idempotent
      ⟨.ok (), [.ok, .tolerated], .ok (), .ok (), .ok (), .ok (), .ok ()⟩
      ⟨false, true, false, false, true, false, false⟩ rfl (by rfl)
  refine ⟨?_, h.2.1, h.2.2 _⟩
  rw [h.1]
  rfl

/-! ## C7: failure characterization of the setup chain -/

/-- Phase `k` of the setup was due (not skipped) from state `s` and its
external operation raised `e`. -/
def stepFailed (env : SetupEnv) (s : SetupState) (k : Nat) (e : PyErr) : Prop :=
  (k = 0 ∧ s.repoExists = false ∧ env.cloneResult = .error e)
  ∨ (k = 1 ∧ s.patchDirExists = true ∧ (applyPatchLoop env.patchOutcomes 0).1 = .error e)
  ∨ (k = 2 ∧ s.modelsNonempty = false ∧ env.downloadModelsResult = .error e)
  ∨ (k = 3 ∧ s.mixamoNonempty = false ∧ env.downloadMixamoResult = .error e)
  ∨ (k = 4 ∧ s.requirementsExist = true ∧ s.pipExists = false
      ∧ (env.uvVenvResult = .error e
         ∨ (env.uvVenvResult = .ok () ∧ env.ensurepipResult = .error e)
         ∨ (env.uvVenvResult = .ok () ∧ env.ensurepipResult = .ok ()
             ∧ env.pipInstallResult = .error e)))

theorem stepFailed_lift_repo (env : SetupEnv) (s : SetupState) (k : Nat) (e : PyErr)
    (hk : 1 ≤ k) (h : stepFailed env { s with repoExists := true } k e) :
    stepFailed env s k e := by
  rcases h with ⟨hk0, _, _⟩ | h | h | h | h
  · omega
  · exact Or.inr (Or.inl h)
  · exact Or.inr (Or.inr (Or.inl h))
  · exact Or.inr (Or.inr (Or.inr (Or.inl h)))
  · exact Or.inr (Or.inr (Or.inr (Or.inr h)))

theorem stepFailed_lift_models (env : SetupEnv) (s : SetupState) (k : Nat) (e : PyErr)
    (hk : 3 ≤ k) (h : stepFailed env { s with modelsNonempty := true } k e) :
    stepFailed env s k e := by
  rcases h with ⟨hk0, _, _⟩ | ⟨hk1, _, _⟩ | ⟨hk2, _, _⟩ | h | h
  · omega
  · omega
  · omega
  · exact Or.inr (Or.inr (Or.inr (Or.inl h)))
  · exact Or.inr (Or.inr (Or.inr (Or.inr h)))

theorem stepFailed_lift_mixamo (env : SetupEnv) (s : SetupState) (k : Nat) (e : PyErr)
    (hk : 4 ≤ k) (h : stepFailed env { s with mixamoNonempty := true } k e) :
    stepFailed env s k e := by
  rcases h with ⟨hk0, _, _⟩ | ⟨hk1, _, _⟩ | ⟨hk2, _, _⟩ | ⟨hk3, _, _⟩ | h
  · omega
  · omega
  · omega
  · omega
  · exact Or.inr (Or.inr (Or.inr (Or.inr h)))

theorem applyPatchLoop_mem (outs : List PatchOutcome) (i : Nat) (a : Action)
    (h : a ∈ (applyPatchLoop outs i).2) : ∃ j, i ≤ j ∧ a = .applyPatch j := by
  induction outs generalizing i with
  | nil => simp [applyPatchLoop] at h
  | cons o rest ih =>
    unfold applyPatchLoop at h
    cases o with
    | fatal =>
      simp only [List.mem_singleton] at h
      exact ⟨i, Nat.le_refl i, h⟩
    | ok =>
      dsimp only at h
      rcases List.mem_cons.mp h with rfl | h'
      · exact ⟨i, Nat.le_refl i, rfl⟩
      · obtain ⟨j, hj, ha⟩ := ih (i + 1) h'
        exact ⟨j, Nat.le_of_succ_le hj, ha⟩
    | tolerated =>
      dsimp only at h
      rcases List.mem_cons.mp h with rfl | h'
      · exact ⟨i, Nat.le_refl i, rfl⟩
      · obtain ⟨j, hj, ha⟩ := ih (i + 1) h'
        exact ⟨j, Nat.le_of_succ_le hj, ha⟩

theorem applyPatchLoop_nodup (outs : List PatchOutcome) (i : Nat) :
    (applyPatchLoop outs i).2.Nodup := by
  induction outs generalizing i with
  | nil => simp [applyPatchLoop]
  | cons o rest ih =>
    unfold applyPatchLoop
    cases o with
    | fatal => simp
    | ok =>
      dsimp only
      refine List.nodup_cons.mpr ⟨?_, ih (i + 1)⟩
      intro hmem
      obtain ⟨j, hj, ha⟩ := applyPatchLoop_mem rest (i + 1) _ hmem
      rw [Action.applyPatch.injEq] at ha
      omega
    | tolerated =>
      dsimp only
      refine List.nodup_cons.mpr ⟨?_, ih (i + 1)⟩
      intro hmem
      obtain ⟨j, hj, ha⟩ := applyPatchLoop_mem rest (i + 1) _ hmem
      rw [Action.applyPatch.injEq] at ha
      omega

theorem applyPatchLoop_stepIdx (outs : List PatchOutcome) (i : Nat) (a : Action)
    (h : a ∈ (applyPatchLoop outs i).2) : a.stepIdx = 1 := by
  obtain ⟨j, _, rfl⟩ := applyPatchLoop_mem outs i a h
  rfl

theorem setupFrom5_err_char (env : SetupEnv) (s : SetupState) (e : PyErr)
    (hs : s.setupComplete = false)
    (herr : (setupFrom5 env s).1 = .error e) :
    (setupFrom5 env s).2.1.setupComplete = false
    ∧ ∃ k, 4 ≤ k ∧ stepFailed env s k e
        ∧ (∀ a ∈ (setupFrom5 env s).2.2, 4 ≤ a.stepIdx ∧ a.stepIdx ≤ k)
        ∧ (setupFrom5 env s).2.2.Nodup
        ∧ List.Pairwise (fun a b => a.stepIdx ≤ b.stepIdx) (setupFrom5 env s).2.2 := by
  by_cases hr : s.requirementsExist = true
  · by_cases hp : s.pipExists = true
    · simp [setupFrom5, ensure_repo_venv_skip_pip env s hp] at herr
    · have hp' : s.pipExists = false := by simpa using hp
      cases hu : env.uvVenvResult with
      | error e' =>
        simp only [setupFrom5, ensure_repo_venv_uv_err env s e' hr hp' hu,
          Except.error.injEq] at herr ⊢
        subst herr
        refine ⟨hs, 4, Nat.le_refl 4,
          Or.inr (Or.inr (Or.inr (Or.inr ⟨rfl, hr, hp', Or.inl hu⟩))), ?_, by simp, by simp⟩
        intro a ha
        rw [List.mem_singleton] at ha
        subst ha
        exact ⟨Nat.le_refl 4, Nat.le_refl 4⟩
      | ok u =>
        cases u
        cases he : env.ensurepipResult with
        | error e' =>
          simp only [setupFrom5, ensure_repo_venv_ep_err env s e' hr hp' hu he,
            Except.error.injEq] at herr ⊢
          subst herr
          refine ⟨hs, 4, Nat.le_refl 4,
            Or.inr (Or.inr (Or.inr (Or.inr ⟨rfl, hr, hp', Or.inr (Or.inl ⟨hu, he⟩)⟩))),
            ?_, by simp, by simp [Action.stepIdx]⟩
          intro a ha
          rcases List.mem_cons.mp ha with rfl | ha
          · exact ⟨Nat.le_refl 4, Nat.le_refl 4⟩
          · rw [List.mem_singleton] at ha
            subst ha
            exact ⟨Nat.le_refl 4, Nat.le_refl 4⟩
        | ok u =>
          cases u
          cases hpi : env.pipInstallResult with
          | error e' =>
            simp only [setupFrom5, ensure_repo_venv_pip_err env s e' hr hp' hu he hpi,
              Except.error.injEq] at herr ⊢
            subst herr
            refine ⟨hs, 4, Nat.le_refl 4,
              Or.inr (Or.inr (Or.inr (Or.inr ⟨rfl, hr, hp',
                Or.inr (Or.inr ⟨hu, he, hpi⟩)⟩))), ?_, by simp, by simp [Action.stepIdx]⟩
            intro a ha
            rcases List.mem_cons.mp ha with rfl | ha
            · exact ⟨Nat.le_refl 4, Nat.le_refl 4⟩
            rcases List.mem_cons.mp ha with rfl | ha
            · exact ⟨Nat.le_refl 4, Nat.le_refl 4⟩
            · rw [List.mem_singleton] at ha
              subst ha
              exact ⟨Nat.le_refl 4, Nat.le_refl 4⟩
          | ok u =>
            cases u
            simp [setupFrom5, ensure_repo_venv_run_ok env s hr hp' hu he hpi] at herr
  · have hr' : s.requirementsExist = false := by simpa using hr
    simp [setupFrom5, ensure_repo_venv_skip_noreq env s hr'] at herr

theorem applyPatchLoop_pairwise (outs : List PatchOutcome) (i : Nat) :
    List.Pairwise (fun a b : Action => a.stepIdx ≤ b.stepIdx)
      (applyPatchLoop outs i).2 := by
  induction outs generalizing i with
  | nil => simp [applyPatchLoop]
  | cons o rest ih =>
    unfold applyPatchLoop
    cases o with
    | fatal => simp
    | ok =>
      dsimp only
      refine List.pairwise_cons.mpr ⟨?_, ih (i + 1)⟩
      intro b hb
      rw [applyPatchLoop_stepIdx rest (i + 1) b hb]
      exact Nat.le_refl 1
    | tolerated =>
      dsimp only
      refine List.pairwise_cons.mpr ⟨?_, ih (i + 1)⟩
      intro b hb
      rw [applyPatchLoop_stepIdx rest (i + 1) b hb]
      exact Nat.le_refl 1

theorem setupFrom4_err_char (env : SetupEnv) (s : SetupState) (e : PyErr)
    (hs : s.setupComplete = false)
    (herr : (setupFrom4 env s).1 = .error e) :
    (setupFrom4 env s).2.1.setupComplete = false
    ∧ ∃ k, 3 ≤ k ∧ stepFailed env s k e
        ∧ (∀ a ∈ (setupFrom4 env s).2.2, 3 ≤ a.stepIdx ∧ a.stepIdx ≤ k)
        ∧ (setupFrom4 env s).2.2.Nodup
        ∧ List.Pairwise (fun a b => a.stepIdx ≤ b.stepIdx) (setupFrom4 env s).2.2 := by
  by_cases hm : s.mixamoNonempty = true
  · simp only [setupFrom4, download_mixamo_bones_skip env s hm, List.nil_append] at herr ⊢
    obtain ⟨hc, k, hk, hsf, hb, hnd, hpw⟩ := setupFrom5_err_char env s e hs herr
    refine ⟨hc, k, by omega, hsf, ?_, hnd, hpw⟩
    intro a ha
    have h4 := hb a ha
    exact ⟨by omega, h4.2⟩
  · have hm' : s.mixamoNonempty = false := by simpa using hm
    cases hmx : env.downloadMixamoResult with
    | error e' =>
      simp only [setupFrom4, download_mixamo_bones_run_err env s e' hm' hmx,
        Except.error.injEq] at herr ⊢
      subst herr
      refine ⟨hs, 3, Nat.le_refl 3,
        Or.inr (Or.inr (Or.inr (Or.inl ⟨rfl, hm', hmx⟩))), ?_, by simp, by simp⟩
      intro a ha
      rw [List.mem_singleton] at ha
      subst ha
      exact ⟨Nat.le_refl 3, Nat.le_refl 3⟩
    | ok u =>
      cases u
      simp only [setupFrom4, download_mixamo_bones_run_ok env s hm' hmx,
        List.singleton_append] at herr ⊢
      obtain ⟨hc, k, hk, hsf, hb, hnd, hpw⟩ :=
        setupFrom5_err_char env { s with mixamoNonempty := true } e hs herr
      refine ⟨hc, k, by omega, stepFailed_lift_mixamo env s k e hk hsf, ?_, ?_, ?_⟩
      · intro a ha
        rcases List.mem_cons.mp ha with rfl | ha'
        · exact ⟨Nat.le_refl 3, (by omega : (3 : Nat) ≤ k)⟩
        · have h4 := hb a ha'
          exact ⟨by omega, h4.2⟩
      · refine List.nodup_cons.mpr ⟨?_, hnd⟩
        intro hmem
        have h4 := (hb _ hmem).1
        simp [Action.stepIdx] at h4
      · refine List.pairwise_cons.mpr ⟨?_, hpw⟩
        intro b hbm
        have h4 := (hb b hbm).1
        calc Action.stepIdx .downloadMixamo = 3 := rfl
          _ ≤ b.stepIdx := by omega

theorem setupFrom3_err_char (env : SetupEnv) (s : SetupState) (e : PyErr)
    (hs : s.setupComplete = false)
    (herr : (setupFrom3 env s).1 = .error e) :
    (setupFrom3 env s).2.1.setupComplete = false
    ∧ ∃ k, 2 ≤ k ∧ stepFailed env s k e
        ∧ (∀ a ∈ (setupFrom3 env s).2.2, 2 ≤ a.stepIdx ∧ a.stepIdx ≤ k)
        ∧ (setupFrom3 env s).2.2.Nodup
        ∧ List.Pairwise (fun a b => a.stepIdx ≤ b.stepIdx) (setupFrom3 env s).2.2 := by
  by_cases hm : s.modelsNonempty = true
  · simp only [setupFrom3, download_pretrained_models_skip env s hm, List.nil_append] at herr ⊢
    obtain ⟨hc, k, hk, hsf, hb, hnd, hpw⟩ := setupFrom4_err_char env s e hs herr
    refine ⟨hc, k, by omega, hsf, ?_, hnd, hpw⟩
    intro a ha
    have h4 := hb a ha
    exact ⟨by omega, h4.2⟩
  · have hm' : s.modelsNonempty = false := by simpa using hm
    cases hmx : env.downloadModelsResult with
    | error e' =>
      simp only [setupFrom3, download_pretrained_models_run_err env s e' hm' hmx,
        Except.error.injEq] at herr ⊢
      subst herr
      refine ⟨hs, 2, Nat.le_refl 2,
        Or.inr (Or.inr (Or.inl ⟨rfl, hm', hmx⟩)), ?_, by simp, by simp⟩
      intro a ha
      rw [List.mem_singleton] at ha
      subst ha
      exact ⟨Nat.le_refl 2, Nat.le_refl 2⟩
    | ok u =>
      cases u
      simp only [setupFrom3, download_pretrained_models_run_ok env s hm' hmx,
        List.singleton_append] at herr ⊢
      obtain ⟨hc, k, hk, hsf, hb, hnd, hpw⟩ :=
        setupFrom4_err_char env { s with modelsNonempty := true } e hs herr
      refine ⟨hc, k, by omega, stepFailed_lift_models env s k e hk hsf, ?_, ?_, ?_⟩
      · intro a ha
        rcases List.mem_cons.mp ha with rfl | ha'
        · exact ⟨Nat.le_refl 2, (by omega : (2 : Nat) ≤ k)⟩
        · have h4 := hb a ha'
          exact ⟨by omega, h4.2⟩
      · refine List.nodup_cons.mpr ⟨?_, hnd⟩
        intro hmem
        have h4 := (hb _ hmem).1
        simp [Action.stepIdx] at h4
      · refine List.pairwise_cons.mpr ⟨?_, hpw⟩
        intro b hbm
        have h4 := (hb b hbm).1
        calc Action.stepIdx .downloadModels = 2 := rfl
          _ ≤ b.stepIdx := by omega

theorem setupFrom2_err_char (env : SetupEnv) (s : SetupState) (e : PyErr)
    (hs : s.setupComplete = false)
    (herr : (setupFrom2 env s).1 = .error e) :
    (setupFrom2 env s).2.1.setupComplete = false
    ∧ ∃ k, 1 ≤ k ∧ stepFailed env s k e
        ∧ (∀ a ∈ (setupFrom2 env s).2.2, 1 ≤ a.stepIdx ∧ a.stepIdx ≤ k)
        ∧ (setupFrom2 env s).2.2.Nodup
        ∧ List.Pairwise (fun a b => a.stepIdx ≤ b.stepIdx) (setupFrom2 env s).2.2 := by
  by_cases hp : s.patchDirExists = true
  · simp only [setupFrom2, apply_patches_run env s hp] at herr ⊢
    cases hl : (applyPatchLoop env.patchOutcomes 0).1 with
    | error e' =>
      rw [hl] at herr
      dsimp only at herr ⊢
      rw [Except.error.injEq] at herr
      subst herr
      refine ⟨hs, 1, Nat.le_refl 1, Or.inr (Or.inl ⟨rfl, hp, hl⟩), ?_,
        applyPatchLoop_nodup _ _, applyPatchLoop_pairwise _ _⟩
      intro a ha
      have h1 := applyPatchLoop_stepIdx _ _ a ha
      omega
    | ok u =>
      cases u
      rw [hl] at herr
      dsimp only at herr ⊢
      obtain ⟨hc, k, hk, hsf, hb, hnd, hpw⟩ := setupFrom3_err_char env s e hs herr
      refine ⟨hc, k, by omega, hsf, ?_, ?_, ?_⟩
      · intro a ha
        rcases List.mem_append.mp ha with ha' | ha'
        · have h1 := applyPatchLoop_stepIdx _ _ a ha'
          omega
        · have h4 := hb a ha'
          exact ⟨by omega, h4.2⟩
      · refine List.nodup_append.mpr ⟨applyPatchLoop_nodup _ _, hnd, ?_⟩
        intro a ha1 ha2
        have h1 := applyPatchLoop_stepIdx _ _ a ha1
        have h2 := (hb a ha2).1
        omega
      · refine List.pairwise_append.mpr ⟨applyPatchLoop_pairwise _ _, hpw, ?_⟩
        intro a ha1 b hb1
        have h1 := applyPatchLoop_stepIdx _ _ a ha1
        have h2 := (hb b hb1).1
        omega
  · have hp' : s.patchDirExists = false := by simpa using hp
    simp only [setupFrom2, apply_patches_skip env s hp', List.nil_append] at herr ⊢
    obtain ⟨hc, k, hk, hsf, hb, hnd, hpw⟩ := setupFrom3_err_char env s e hs herr
    refine ⟨hc, k, by omega, hsf, ?_, hnd, hpw⟩
    intro a ha
    have h4 := hb a ha
    exact ⟨by omega, h4.2⟩

theorem setupFrom1_err_char (env : SetupEnv) (s : SetupState) (e : PyErr)
    (hs : s.setupComplete = false)
    (herr : (setupFrom1 env s).1 = .error e) :
    (setupFrom1 env s).2.1.setupComplete = false
    ∧ ∃ k, stepFailed env s k e
        ∧ (∀ a ∈ (setupFrom1 env s).2.2, a.stepIdx ≤ k)
        ∧ (setupFrom1 env s).2.2.Nodup
        ∧ List.Pairwise (fun a b => a.stepIdx ≤ b.stepIdx) (setupFrom1 env s).2.2 := by
  by_cases hr : s.repoExists = true
  · simp only [setupFrom1, clone_repo_skip env s hr, List.nil_append] at herr ⊢
    obtain ⟨hc, k, hk, hsf, hb, hnd, hpw⟩ := setupFrom2_err_char env s e hs herr
    exact ⟨hc, k, hsf, fun a ha => (hb a ha).2, hnd, hpw⟩
  · have hr' : s.repoExists = false := by simpa using hr
    cases hco : env.cloneResult with
    | error e' =>
      simp only [setupFrom1, clone_repo_run_err env s e' hr' hco,
        Except.error.injEq] at herr ⊢
      subst herr
      refine ⟨hs, 0, Or.inl ⟨rfl, hr', hco⟩, ?_, by simp, by simp⟩
      intro a ha
      rw [List.mem_singleton] at ha
      subst ha
      exact Nat.le_refl 0
    | ok u =>
      cases u
      simp only [setupFrom1, clone_repo_run_ok env s hr' hco,
        List.singleton_append] at herr ⊢
      obtain ⟨hc, k, hk, hsf, hb, hnd, hpw⟩ :=
        setupFrom2_err_char env { s with repoExists := true } e hs herr
      refine ⟨hc, k, stepFailed_lift_repo env s k e hk hsf, ?_, ?_, ?_⟩
      · intro a ha
        rcases List.mem_cons.mp ha with rfl | ha'
        · exact (by omega : (0 : Nat) ≤ k)
        · exact (hb a ha').2
      · refine List.nodup_cons.mpr ⟨?_, hnd⟩
        intro hmem
        have h1 := (hb _ hmem).1
        simp [Action.stepIdx] at h1
      · refine List.pairwise_cons.mpr ⟨?_, hpw⟩
        intro b hbm
        have h1 := (hb b hbm).1
        calc Action.stepIdx .gitClone = 0 := rfl
          _ ≤ b.stepIdx := by omega

/-- C7: if any setup step raises, `setup_make_it_animatable` aborts at once —
the raised exception propagates unchanged to the node invocation, the
`setup_complete` flag stays false, some due phase `k` is the one whose
external operation raised the error, every attempted action belongs to a
phase `≤ k` (no later step attempted), no action repeats and the trace stays
phase-ordered (no retry), and the node invocation fails with only setup
actions in its trace — so no subprocess is ever launched. -/
theorem setup_failure_aborts (env : SetupEnv) (s : SetupState) (e : PyErr)
    (nodeDir : String) (sub : List String → World → World × SubResult)
    (input_model_path : String) (kwargsOf : String → Kwargs) (st : NState)
    (hs : s.setupComplete = false) (hst : st.setup = s)
    (herr : (setup_make_it_animatable env s).1 = .error e) :
    (setup_make_it_animatable env s).2.1.setupComplete = false
    ∧ (∃ k, stepFailed env s k e
        ∧ ∀ a ∈ (setup_make_it_animatable env s).2.2, a.stepIdx ≤ k)
    ∧ (setup_make_it_animatable env s).2.2.Nodup
    ∧ List.Pairwise (fun a b => a.stepIdx ≤ b.stepIdx)
        (setup_make_it_animatable env s).2.2
    ∧ (nodeRunWith nodeDir env sub input_model_path kwargsOf st).1 = .error e
    ∧ ∀ ev ∈ (nodeRunWith nodeDir env sub input_model_path kwargsOf st).2.2,
        ∃ a, ev = NodeEvent.setupAct a := by
  subst hst
  have herr1 : (setupFrom1 env st.setup).1 = .error e := by
    rw [← setup_eq_setupFrom1 env st.setup hs]
    exact herr
  obtain ⟨hc, k, hsf, hb, hnd, hpw⟩ := setupFrom1_err_char env st.setup e hs herr1
  rw [setup_eq_setupFrom1 env st.setup hs]
  refine ⟨hc, ⟨k, hsf, hb⟩, hnd, hpw, ?_, ?_⟩
  · unfold nodeRunWith
    dsimp only
    rw [herr]
  · unfold nodeRunWith
    dsimp only
    rw [herr]
    dsimp only
    intro ev hev
    rw [List.mem_map] at hev
    obtain ⟨a, _, ha⟩ := hev
    exact ⟨a, ha.symm⟩

/-- Closed witness for C7: a failing `git clone` on a fresh state propagates
its error through the mesh-node body, leaves the flag false, and the trace is
the single clone attempt. -/
theorem setup_failure_aborts_witness :
    (setup_make_it_animatable
        ⟨.error ⟨"CalledProcessError", "git clone failed"⟩, [], .ok (), .ok (), .ok (), .ok (), .ok ()⟩
        ⟨false, false, false, false, false, false, false⟩).2.1.setupComplete = false
    ∧ (∃ k, stepFailed
          ⟨.error ⟨"CalledProcessError", "git clone failed"⟩, [], .ok (), .ok (), .ok (), .ok (), .ok ()⟩
          ⟨false, false, false, false, false, false, false⟩ k
          ⟨"CalledProcessError", "git clone failed"⟩
        ∧ ∀ a ∈ (setup_make_it_animatable
            ⟨.error ⟨"CalledProcessError", "git clone failed"⟩, [], .ok (), .ok (), .ok (), .ok (), .ok ()⟩
            ⟨false, false, false, false, false, false, false⟩).2.2, a.stepIdx ≤ k)
    ∧ (nodeRunWith "/n"
        ⟨.error ⟨"CalledProcessError", "git clone failed"⟩, [], .ok (), .ok (), .ok (), .ok (), .ok ()⟩
        (fun _ w => (w, ⟨"", "", 0⟩)) "/m/model.glb" (fun _ => [])
        ⟨⟨false, false, false, false, false, false, false⟩, ⟨["/m/model.glb"]⟩⟩).1
      = .error ⟨"CalledProcessError", "git clone failed"⟩ := by
  have h := setup_failure_aborts
      ⟨.error ⟨"CalledProcessError", "git clone failed"⟩, [], .ok (), .ok (), .ok (), .ok (), .ok ()⟩
      ⟨false, false, false, false, false, false, false⟩
      ⟨"CalledProcessError", "git clone failed"⟩ "/n"
      (fun _ w => (w, ⟨"", "", 0⟩)) "/m/model.glb" (fun _ => [])
      ⟨⟨false, false, false, false, false, false, false⟩, ⟨["/m/model.glb"]⟩⟩
      rfl rfl (by rfl)
  exact ⟨h.1, h.2.1, h.2.2.2.2.1⟩

/-! ## C5: the two behaviours of `fbx2glb` -/

/-- The poked-at fallback (lines 89-94) never fires: the transplanted slots
are exactly the recorded original materials, in dict order. -/
theorem transplantSlots_eq (d : List (String × BMat)) :
    transplantSlots d = d.map (fun p => some p.2) := by
  cases d with
  | nil => simp [transplantSlots]
  | cons p rest => simp [transplantSlots]

/-- Filtering by kind commutes with a kind-preserving rewrite of the scene. -/
theorem filter_kind_map (f : BObj → BObj) (l : List BObj) (k : BObjKind)
    (hkind : ∀ o, (f o).kind = o.kind) :
    (l.map f).filter (fun o => o.kind = k)
      = (l.filter (fun o => o.kind = k)).map f := by
  induction l with
  | nil => rfl
  | cons o rest ih =>
    simp only [List.map_cons, List.filter_cons]
    by_cases h : o.kind = k
    · simp [h, hkind o, ih]
    · simp [h, hkind o, ih]

/-- The transform loop's events: one `transformApply` per object of kind `k`,
in scene order, also when the scene was first rewritten by a kind- and
name-preserving map. -/
theorem applyAllOfKind_events_map (k : BObjKind) (f : BObj → BObj) (l : List BObj)
    (hkind : ∀ o, (f o).kind = o.kind) (hname : ∀ o, (f o).oname = o.oname) :
    (applyAllOfKind k (l.map f)).2
      = (l.filter (fun o => o.kind = k)).map (fun o => FEvent.transformApply o.oname) := by
  unfold applyAllOfKind
  dsimp only
  rw [filter_kind_map f l k hkind]
  rw [List.map_map]
  apply List.map_congr_left
  intro o _
  simp [Function.comp, hname]

theorem applyAllOfKind_scene (k : BObjKind) (l : List BObj) :
    (applyAllOfKind k l).1 = l.map (fun o => if o.kind = k then applyXform o else o) := rfl

/-- C5: with an existing original GLB, `fbx2glb` imports the GLB, records its
materials, clears the scene, imports the FBX ignoring leaf bones, replaces
each FBX mesh's material slots by exactly the recorded original materials,
flattens the transforms of every armature and every mesh, and exports to the
output path; when the original GLB is absent (`None`) — or provided but
missing on disk (filesystem `fs2` with no file at `og`) — the only
behavioural difference is that the FBX keeps its own materials: the
provided-but-missing run coincides with the `None` run exactly. -/
theorem fbx2glb_two_behaviours
    (fs : String → Option (List BObj)) (input_fbx output_glb og : String)
    (sc : List BObj) (glbContent fbxContent : List BObj)
    (hog : og ≠ "") (hglb : fs og = some glbContent)
    (hfbx : fs input_fbx = some fbxContent)
    (fs2 : String → Option (List BObj))
    (hglb2 : fs2 og = none) (hfbx2 : fs2 input_fbx = some fbxContent) :
    fbx2glb fs input_fbx output_glb (some og) true sc
      = (.ok (fbxContent.map (fun o =>
            match o.kind with
            | .mesh => { o with
                matSlots := (collectMaterials (sceneMeshes glbContent)).map
                              (fun p => some p.2),
                xform := [], geomXf := o.xform ++ o.geomXf }
            | .armature => { o with xform := [], geomXf := o.xform ++ o.geomXf }
            | .other => o)),
         [FEvent.clearScene, .importGLB og, .clearScene, .importFBX input_fbx true]
           ++ (sceneArmatures fbxContent).map (fun o => FEvent.transformApply o.oname)
           ++ (sceneMeshes fbxContent).map (fun o => FEvent.transformApply o.oname)
           ++ [.exportGLB output_glb])
    ∧ fbx2glb fs input_fbx output_glb none true sc
      = (.ok (fbxContent.map (fun o =>
            match o.kind with
            | .mesh => { o with xform := [], geomXf := o.xform ++ o.geomXf }
            | .armature => { o with xform := [], geomXf := o.xform ++ o.geomXf }
            | .other => o)),
         [FEvent.clearScene, .importFBX input_fbx true]
           ++ (sceneArmatures fbxContent).map (fun o => FEvent.transformApply o.oname)
           ++ (sceneMeshes fbxContent).map (fun o => FEvent.transformApply o.oname)
           ++ [.exportGLB output_glb])
    ∧ fbx2glb fs2 input_fbx output_glb (some og) true sc
      = (.ok (fbxContent.map (fun o =>
            match o.kind with
            | .mesh => { o with xform := [], geomXf := o.xform ++ o.geomXf }
            | .armature => { o with xform := [], geomXf := o.xform ++ o.geomXf }
            | .other => o)),
         [FEvent.clearScene, .importFBX input_fbx true]
           ++ (sceneArmatures fbxContent).map (fun o => FEvent.transformApply o.oname)
           ++ (sceneMeshes fbxContent).map (fun o => FEvent.transformApply o.oname)
           ++ [.exportGLB output_glb])
    ∧ fbx2glb fs2 input_fbx output_glb (some og) true sc
      = fbx2glb fs2 input_fbx output_glb none true sc := by
  refine ⟨?_, ?_, ?_, ?_⟩
  · unfold fbx2glb
    simp only [hog, hglb, hfbx, pyTruthyOpt, Option.getD_some, Option.isSome_some,
      ne_eq, not_false_eq_true, true_and, if_true,
      List.nil_append, Option.getD_some]
    rw [if_pos (by simp)]
    rw [Prod.mk.injEq]
    constructor
    · rw [Except.ok.injEq]
      rw [applyAllOfKind_scene, applyAllOfKind_scene, List.map_map, List.map_map]
      apply List.map_congr_left
      intro o _
      cases hk : o.kind with
      | mesh => simp [Function.comp, applyXform, transplantSlots_eq, hk]
      | armature => simp [Function.comp, applyXform, hk]
      | other => simp [Function.comp, applyXform, hk]
    · rw [applyAllOfKind_scene, List.map_map]
      rw [applyAllOfKind_events_map _ _ _
            (by intro o; by_cases h : o.kind = BObjKind.mesh <;> simp [h])
            (by intro o; by_cases h : o.kind = BObjKind.mesh <;> simp [h])]
      rw [applyAllOfKind_events_map _ _ _
            (by intro o
                by_cases h : o.kind = BObjKind.mesh <;>
                  by_cases h2 : o.kind = BObjKind.armature <;>
                  simp [Function.comp, h, h2, applyXform])
            (by intro o
                by_cases h : o.kind = BObjKind.mesh <;>
                  by_cases h2 : o.kind = BObjKind.armature <;>
                  simp [Function.comp, h, h2, applyXform])]
      simp [sceneArmatures, sceneMeshes]
  · unfold fbx2glb
    simp only [hfbx, pyTruthyOpt, Option.isSome_some, List.nil_append]
    rw [if_neg (by simp [pyTruthyOpt])]
    rw [Prod.mk.injEq]
    constructor
    · rw [Except.ok.injEq]
      rw [applyAllOfKind_scene, applyAllOfKind_scene, List.map_map]
      apply List.map_congr_left
      intro o _
      cases hk : o.kind with
      | mesh => simp [Function.comp, applyXform, hk]
      | armature => simp [Function.comp, applyXform, hk]
      | other => simp [Function.comp, applyXform, hk]
    · rw [applyAllOfKind_scene]
      rw [applyAllOfKind_events_map _ _ _
            (by intro o; by_cases h : o.kind = BObjKind.armature <;> simp [h, applyXform])
            (by intro o; by_cases h : o.kind = BObjKind.armature <;> simp [h, applyXform])]
      simp [applyAllOfKind, sceneArmatures, sceneMeshes]
  · unfold fbx2glb
    simp only [hfbx2, Option.getD_some, List.nil_append]
    rw [if_neg (by simp [hglb2])]
    rw [Prod.mk.injEq]
    constructor
    · rw [Except.ok.injEq]
      rw [applyAllOfKind_scene, applyAllOfKind_scene, List.map_map]
      apply List.map_congr_left
      intro o _
      cases hk : o.kind with
      | mesh => simp [Function.comp, applyXform, hk]
      | armature => simp [Function.comp, applyXform, hk]
      | other => simp [Function.comp, applyXform, hk]
    · rw [applyAllOfKind_scene]
      rw [applyAllOfKind_events_map _ _ _
            (by intro o; by_cases h : o.kind = BObjKind.armature <;> simp [h, applyXform])
            (by intro o; by_cases h : o.kind = BObjKind.armature <;> simp [h, applyXform])]
      simp [applyAllOfKind, sceneArmatures, sceneMeshes]
  · unfold fbx2glb
    rw [if_neg (show ¬(pyTruthyOpt (some og) = true
            ∧ (fs2 ((some og).getD "")).isSome = true) by simp [hglb2]),
        if_neg (show ¬(pyTruthyOpt none = true
            ∧ (fs2 ((none : Option String).getD "")).isSome = true) by
          simp [pyTruthyOpt])]

/-- Closed witness for C5: a one-mesh GLB and a mesh-plus-armature FBX; the
exported scene carries the GLB's material on the FBX mesh with transforms
flattened, and the trace is the claimed operation sequence; on a filesystem
lacking the original GLB, the provided path behaves like no path at all. -/
theorem fbx2glb_two_behaviours_witness :
    fbx2glb
      (fun p =>
        if p = "/og.glb" then
          some [⟨BObjKind.mesh, "origMesh", [some ⟨1, "matA"⟩, none], [], []⟩]
        else if p = "/in.fbx" then
          some [⟨BObjKind.armature, "arm", [], ["R"], []⟩,
                ⟨BObjKind.mesh, "body", [some ⟨9, "fbxMat"⟩], ["S"], []⟩]
        else none)
      "/in.fbx" "/out.glb" (some "/og.glb") true []
      = (.ok [⟨BObjKind.armature, "arm", [], [], ["R"]⟩,
              ⟨BObjKind.mesh, "body", [some ⟨1, "matA"⟩], [], ["S"]⟩],
         [FEvent.clearScene, .importGLB "/og.glb", .clearScene,
          .importFBX "/in.fbx" true, .transformApply "arm", .transformApply "body",
          .exportGLB "/out.glb"])
    ∧ fbx2glb
        (fun p =>
          if p = "/in.fbx" then
            some [⟨BObjKind.armature, "arm", [], ["R"], []⟩,
                  ⟨BObjKind.mesh, "body", [some ⟨9, "fbxMat"⟩], ["S"], []⟩]
          else none)
        "/in.fbx" "/out.glb" (some "/og.glb") true []
      = (.ok [⟨BObjKind.armature, "arm", [], [], ["R"]⟩,
              ⟨BObjKind.mesh, "body", [some ⟨9, "fbxMat"⟩], [], ["S"]⟩],
         [FEvent.clearScene, .importFBX "/in.fbx" true,
          .transformApply "arm", .transformApply "body", .exportGLB "/out.glb"])
    ∧ fbx2glb
        (fun p =>
          if p = "/in.fbx" then
            some [⟨BObjKind.armature, "arm", [], ["R"], []⟩,
                  ⟨BObjKind.mesh, "body", [some ⟨9, "fbxMat"⟩], ["S"], []⟩]
          else none)
        "/in.fbx" "/out.glb" (some "/og.glb") true []
      = fbx2glb
        (fun p =>
          if p = "/in.fbx" then
            some [⟨BObjKind.armature, "arm", [], ["R"], []⟩,
                  ⟨BObjKind.mesh, "body", [some ⟨9, "fbxMat"⟩], ["S"], []⟩]
          else none)
        "/in.fbx" "/out.glb" none true [] := by
  have h := fbx2glb_two_behaviours
      (fun p =>
        if p = "/og.glb" then
          some [⟨BObjKind.mesh, "origMesh", [some ⟨1, "matA"⟩, none], [], []⟩]
        else if p = "/in.fbx" then
          some [⟨BObjKind.armature, "arm", [], ["R"], []⟩,
                ⟨BObjKind.mesh, "body", [some ⟨9, "fbxMat"⟩], ["S"], []⟩]
        else none)
      "/in.fbx" "/out.glb" "/og.glb" []
      [⟨BObjKind.mesh, "origMesh", [some ⟨1, "matA"⟩, none], [], []⟩]
      [⟨BObjKind.armature, "arm", [], ["R"], []⟩,
       ⟨BObjKind.mesh, "body", [some ⟨9, "fbxMat"⟩], ["S"], []⟩]
      (by decide) (by rfl) (by rfl)
      (fun p =>
        if p = "/in.fbx" then
          some [⟨BObjKind.armature, "arm", [], ["R"], []⟩,
                ⟨BObjKind.mesh, "body", [some ⟨9, "fbxMat"⟩], ["S"], []⟩]
        else none)
      (by decide) (by rfl)
  refine ⟨?_, ?_, h.2.2.2⟩
  · rw [h.1]
    rfl
  · rw [h.2.2.1]
    rfl

end MIA
